import Mathlib

set_option maxRecDepth 100000

namespace Esc

/-! Shallow embedding of the pinocchio escrow program's `Take` and `Refund`
instruction handlers (`src/instructions/take.rs`, `src/instructions/refund.rs`),
together with the token-program operations they invoke.  Addresses are modelled
as naturals, `u64` quantities as naturals with explicit saturation / overflow
bounds, and the account base as a total map from addresses to accounts. -/

abbrev Address := Nat

def u64_max : Nat := 2 ^ 64 - 1

/-- Rust `u64::saturating_add`. -/
def sat_add_u64 (a b : Nat) : Nat := min (a + b) u64_max

def system_program_id : Address := 0

def token_program_id : Address := 2000

/-- The program's own address, `crate::ID`. -/
def program_id : Address := 1000

/-- The escrow record persisted in the escrow account's data
(`crate::state::Escrow`; the `state` module is not part of the shown sources,
its fields and accessors are those named by the handlers and spec section 3). -/
structure Escrow where
  maker : Address
  mint_a : Address
  mint_b : Address
  amount_to_receive : Nat
  amount_to_give : Nat
  bump : Nat
deriving DecidableEq

/-- An SPL token account's relevant fields (mint, owner/authority, amount). -/
structure TokenAccount where
  mint : Address
  owner : Address
  amount : Nat
deriving DecidableEq

/-- The data stored in an account: an escrow record, a token account, or
uninterpreted bytes of a given length. -/
inductive AccountData where
  | escrowData (e : Escrow)
  | tokenData (t : TokenAccount)
  | rawData (n : Nat)
deriving DecidableEq

/-- An on-chain account: lamport balance, owning program, and data. -/
structure Account where
  lamports : Nat
  owner : Address
  data : AccountData
deriving DecidableEq

/-- A closed / nonexistent account: no lamports, owned by the system program,
no data.  Closing an account leaves it in this state. -/
def dead_account : Account := { lamports := 0, owner := system_program_id, data := .rawData 0 }

/-- One entry of the instruction's account list: the referenced address and
whether the runtime verified a signature for it. -/
structure AccountMeta where
  address : Address
  is_signer : Bool
deriving DecidableEq

/-- The account base: a total map from addresses to accounts. -/
abbrev State := Address → Account

/-- Pointwise state update. -/
def upd (s : State) (a : Address) (acc : Account) : State :=
  fun b => if b = a then acc else s b

/-- The error kinds surfaced by the handlers and by the token program. -/
inductive ProgramError where
  | NotEnoughAccountKeys
  | MissingRequiredSignature
  | IllegalOwner
  | InvalidAccountData
  | InvalidSeeds
  | InsufficientFunds
  | MintMismatch
  | OwnerMismatch
  | TokenOverflow
  | NonNativeHasBalance
deriving DecidableEq

/-- Externally visible side effects performed through the token program. -/
inductive Event where
  | transfer (source destination authority : Address) (amount : Nat)
  | close_token_account (account destination : Address)
deriving DecidableEq

/-- Result of running a handler: the final state on success (the runtime
discards all effects of a failed instruction), plus the list of token-program
operations that were successfully invoked before the handler returned. -/
structure Outcome where
  result : Except ProgramError State
  events : List Event

/-- `AccountView::owned_by`: the account at `a` is owned by program `o`. -/
def owned_by (s : State) (a o : Address) : Prop := (s a).owner = o

instance (s : State) (a o : Address) : Decidable (owned_by s a o) := by
  unfold owned_by; infer_instance

/-- Modelled from the spec (section 4.1): `pinocchio_pubkey::derive_address`
with seeds `["escrow", maker, [bump]]` and the program id.  The real function
is a collision-resistant hash whose output is off the signing curve; it is
modelled as an injective function of the maker and the bump byte whose output
never equals the maker seed itself. -/
def derive_address (maker : Address) (bump : Nat) : Address :=
  2 * (maker * 256 + bump % 256) + 1

/-- Modelled from the spec: `Escrow::from_account_info` (the `state` module is
not among the shown sources).  It reinterprets the account's data as an escrow
record and fails when the data is not one. -/
def Escrow.from_account_info (s : State) (a : Address) : Except ProgramError Escrow :=
  match (s a).data with
  | .escrowData e => .ok e
  | _ => .error .InvalidAccountData

/-- `pinocchio_token::state::TokenAccount::from_account_view`: succeeds only on
an account owned by the token program whose data is a token account. -/
def token_account_of (s : State) (a : Address) : Option TokenAccount :=
  if (s a).owner = token_program_id then
    match (s a).data with
    | .tokenData t => some t
    | _ => none
  else none

/-- The token amount held by the account at `a` (0 if not a token account). -/
def tok_amount (s : State) (a : Address) : Nat :=
  match token_account_of s a with
  | some t => t.amount
  | none => 0

/-- Overwrite the amount of the token account stored at `a`. -/
def set_token_amount (s : State) (a : Address) (n : Nat) : State :=
  match (s a).data with
  | .tokenData t => upd s a { s a with data := .tokenData { t with amount := n } }
  | _ => s

/-- Overwrite the lamport balance of the account at `a`. -/
def set_lamports (s : State) (a : Address) (n : Nat) : State :=
  upd s a { s a with lamports := n }

/-- `pinocchio::AccountView::close`: zero the lamports, assign the account to
the system program and drop its data. -/
def close_account_view (s : State) (a : Address) : State :=
  upd s a dead_account

/-- The token program's `Transfer{from, to, authority, amount}` operation
(spec section 6 external collaborator contract, SPL token semantics): both
sides must be token accounts, the source must hold the amount, mints must
agree, the authority must be the source owner and must have signed; a
self-transfer changes nothing, otherwise the amount moves (the credit fails on
`u64` overflow). -/
def spl_transfer (s : State) (source destination authority : Address)
    (authority_signed : Bool) (amount : Nat) : Except ProgramError State :=
  match token_account_of s source, token_account_of s destination with
  | some src, some dst =>
    if src.amount < amount then .error .InsufficientFunds
    else if src.mint ≠ dst.mint then .error .MintMismatch
    else if authority ≠ src.owner then .error .OwnerMismatch
    else if authority_signed = false then .error .MissingRequiredSignature
    else if source = destination then .ok s
    else if u64_max < dst.amount + amount then .error .TokenOverflow
    else .ok (set_token_amount (set_token_amount s source (src.amount - amount))
        destination (dst.amount + amount))
  | _, _ => .error .InvalidAccountData

/-- The token program's `CloseAccount{account, destination, authority}`
operation: the account must be a token account distinct from the destination,
must hold no tokens, and the authority must be its owner and have signed; its
lamports move to the destination (failing on `u64` overflow) and the account
becomes dead. -/
def spl_close_account (s : State) (account destination authority : Address)
    (authority_signed : Bool) : Except ProgramError State :=
  match token_account_of s account with
  | some tok =>
    if account = destination then .error .InvalidAccountData
    else if tok.amount ≠ 0 then .error .NonNativeHasBalance
    else if authority ≠ tok.owner then .error .OwnerMismatch
    else if authority_signed = false then .error .MissingRequiredSignature
    else if u64_max < (s destination).lamports + (s account).lamports then .error .TokenOverflow
    else .ok (upd (upd s destination
        { s destination with lamports := (s destination).lamports + (s account).lamports })
        account dead_account)
  | none => .error .InvalidAccountData

/-- `process_take_instruction` from `src/instructions/take.rs`, line for line.
The slice pattern binds the first ten accounts and ignores any `_remaining`;
fewer accounts give `NotEnoughAccountKeys`.  The checks then run in source
order; only after all of them pass are the two transfers, the custody-account
close, the lamport credit and the record close performed.  `invoke_signed`
authorization for the escrow record is valid exactly when the seed tuple
`["escrow", maker, [bump]]` re-derives the record's address. -/
def process_take_instruction (s : State) (accounts : List AccountMeta) : Outcome :=
  match accounts with
  | taker :: maker :: mint_a :: mint_b :: escrow_account :: taker_ata_b :: maker_ata_b ::
      taker_ata_a :: escrow_ata :: _token_program :: _remaining =>
    if taker.is_signer = false then ⟨.error .MissingRequiredSignature, []⟩
    else if ¬ owned_by s escrow_account.address program_id then ⟨.error .IllegalOwner, []⟩
    else
      match Escrow.from_account_info s escrow_account.address with
      | .error e => ⟨.error e, []⟩
      | .ok escrow_state =>
        let maker_from_state := escrow_state.maker
        let amount_to_receive := escrow_state.amount_to_receive
        let amount_to_give := escrow_state.amount_to_give
        let bump := escrow_state.bump
        if maker_from_state ≠ maker.address then ⟨.error .InvalidAccountData, []⟩
        else if derive_address maker.address bump ≠ escrow_account.address then
          ⟨.error .InvalidSeeds, []⟩
        else
          match token_account_of s taker_ata_b.address with
          | none => ⟨.error .InvalidAccountData, []⟩
          | some taker_ata_b_state =>
            if taker_ata_b_state.owner ≠ taker.address ∨
                taker_ata_b_state.mint ≠ mint_b.address then
              ⟨.error .InvalidAccountData, []⟩
            else
              match token_account_of s maker_ata_b.address with
              | none => ⟨.error .InvalidAccountData, []⟩
              | some maker_ata_b_state =>
                if maker_ata_b_state.owner ≠ maker.address ∨
                    maker_ata_b_state.mint ≠ mint_b.address then
                  ⟨.error .InvalidAccountData, []⟩
                else
                  match token_account_of s taker_ata_a.address with
                  | none => ⟨.error .InvalidAccountData, []⟩
                  | some taker_ata_a_state =>
                    if taker_ata_a_state.owner ≠ taker.address ∨
                        taker_ata_a_state.mint ≠ mint_a.address then
                      ⟨.error .InvalidAccountData, []⟩
                    else
                      match token_account_of s escrow_ata.address with
                      | none => ⟨.error .InvalidAccountData, []⟩
                      | some escrow_ata_state =>
                        if escrow_ata_state.owner ≠ escrow_account.address ∨
                            escrow_ata_state.mint ≠ mint_a.address ∨
                            escrow_ata_state.amount < amount_to_give then
                          ⟨.error .InvalidAccountData, []⟩
                        else
                          match spl_transfer s taker_ata_b.address maker_ata_b.address
                              taker.address taker.is_signer amount_to_receive with
                          | .error e => ⟨.error e, []⟩
                          | .ok s1 =>
                            let ev1 := Event.transfer taker_ata_b.address maker_ata_b.address
                              taker.address amount_to_receive
                            let pda_signed :=
                              decide (derive_address maker.address bump = escrow_account.address)
                            match spl_transfer s1 escrow_ata.address taker_ata_a.address
                                escrow_account.address pda_signed amount_to_give with
                            | .error e => ⟨.error e, [ev1]⟩
                            | .ok s2 =>
                              let ev2 := Event.transfer escrow_ata.address taker_ata_a.address
                                escrow_account.address amount_to_give
                              match spl_close_account s2 escrow_ata.address maker.address
                                  escrow_account.address pda_signed with
                              | .error e => ⟨.error e, [ev1, ev2]⟩
                              | .ok s3 =>
                                let ev3 := Event.close_token_account escrow_ata.address
                                  maker.address
                                let maker_lamports := (s3 maker.address).lamports
                                let s4 := set_lamports s3 maker.address
                                  (sat_add_u64 maker_lamports (s3 escrow_account.address).lamports)
                                let s5 := close_account_view s4 escrow_account.address
                                ⟨.ok s5, [ev1, ev2, ev3]⟩
  | _ => ⟨.error .NotEnoughAccountKeys, []⟩

/-- `process_refund_instruction` from `src/instructions/refund.rs`, line for
line: seven bound accounts (extras ignored), source-order checks, then the
program-authorized refund transfer, custody close, lamport credit and record
close. -/
def process_refund_instruction (s : State) (accounts : List AccountMeta) : Outcome :=
  match accounts with
  | maker :: mint_a :: mint_b :: escrow_account :: maker_ata_a :: escrow_ata ::
      _token_program :: _remaining =>
    if maker.is_signer = false then ⟨.error .MissingRequiredSignature, []⟩
    else if ¬ owned_by s escrow_account.address program_id then ⟨.error .IllegalOwner, []⟩
    else
      match Escrow.from_account_info s escrow_account.address with
      | .error e => ⟨.error e, []⟩
      | .ok escrow_state =>
        let maker_from_state := escrow_state.maker
        let mint_a_from_state := escrow_state.mint_a
        let mint_b_from_state := escrow_state.mint_b
        let amount_to_give := escrow_state.amount_to_give
        let bump := escrow_state.bump
        if maker_from_state ≠ maker.address ∨ mint_a_from_state ≠ mint_a.address ∨
            mint_b_from_state ≠ mint_b.address then
          ⟨.error .InvalidAccountData, []⟩
        else if derive_address maker.address bump ≠ escrow_account.address then
          ⟨.error .InvalidSeeds, []⟩
        else
          match token_account_of s maker_ata_a.address with
          | none => ⟨.error .InvalidAccountData, []⟩
          | some maker_ata_a_state =>
            if maker_ata_a_state.owner ≠ maker.address ∨
                maker_ata_a_state.mint ≠ mint_a.address then
              ⟨.error .InvalidAccountData, []⟩
            else
              match token_account_of s escrow_ata.address with
              | none => ⟨.error .InvalidAccountData, []⟩
              | some escrow_ata_state =>
                if escrow_ata_state.owner ≠ escrow_account.address ∨
                    escrow_ata_state.mint ≠ mint_a.address ∨
                    escrow_ata_state.amount < amount_to_give then
                  ⟨.error .InvalidAccountData, []⟩
                else
                  let pda_signed :=
                    decide (derive_address maker.address bump = escrow_account.address)
                  match spl_transfer s escrow_ata.address maker_ata_a.address
                      escrow_account.address pda_signed amount_to_give with
                  | .error e => ⟨.error e, []⟩
                  | .ok s1 =>
                    let ev1 := Event.transfer escrow_ata.address maker_ata_a.address
                      escrow_account.address amount_to_give
                    match spl_close_account s1 escrow_ata.address maker.address
                        escrow_account.address pda_signed with
                    | .error e => ⟨.error e, [ev1]⟩
                    | .ok s2 =>
                      let ev2 := Event.close_token_account escrow_ata.address maker.address
                      let maker_lamports := (s2 maker.address).lamports
                      let s3 := set_lamports s2 maker.address
                        (sat_add_u64 maker_lamports (s2 escrow_account.address).lamports)
                      let s4 := close_account_view s3 escrow_account.address
                      ⟨.ok s4, [ev1, ev2]⟩
  | _ => ⟨.error .NotEnoughAccountKeys, []⟩

/-- An instruction submitted to the program: the tag byte routed by dispatch
selects the handler, the metas are the supplied account list. -/
inductive Instruction where
  | take (accounts : List AccountMeta)
  | refund (accounts : List AccountMeta)

/-- Run the selected handler. -/
def run (s : State) : Instruction → Outcome
  | .take accounts => process_take_instruction s accounts
  | .refund accounts => process_refund_instruction s accounts

/-- The state after an instruction: its success state, or the unchanged state
when it fails (the runtime discards all effects of a failed instruction). -/
def step (s : State) (i : Instruction) : State :=
  match (run s i).result with
  | .ok s' => s'
  | .error _ => s

/-- Everything reachable from `s` by running instructions of this program. -/
def Reachable (s t : State) : Prop :=
  Relation.ReflTransGen (fun x y => ∃ i, y = step x i) s t

/-- Address of the escrow-record account named by an instruction (position 4
for `Take`, position 3 for `Refund`). -/
def escrow_position : Instruction → Option Address
  | .take accounts => (accounts[4]?).map AccountMeta.address
  | .refund accounts => (accounts[3]?).map AccountMeta.address

/-- Whether the handler succeeded. -/
def succeeded (s : State) (i : Instruction) : Prop :=
  ∃ t, (run s i).result = .ok t

/-- Projections used to state executable facts about outcomes. -/
def result_error (o : Outcome) : Option ProgramError :=
  match o.result with
  | .error e => some e
  | .ok _ => none

def result_is_ok (o : Outcome) : Bool :=
  match o.result with
  | .ok _ => true
  | .error _ => false

def result_account (o : Outcome) (a : Address) : Option Account :=
  match o.result with
  | .ok s => some (s a)
  | .error _ => none

def outcome_state_or (o : Outcome) (dflt : State) : State :=
  match o.result with
  | .ok s => s
  | .error _ => dflt

/-! Concrete scenario used by witnesses and counterexamples.  Addresses:
maker wallet 11, taker wallet 12, mint A 21, mint B 22, escrow record
`derive_address 11 1 = 5635`, custody (vault) 31, taker's B account 41,
maker's B account 42, taker's A account 43, maker's A account 44, a B-mint
account owned by the maker 45, a low-balance B-mint account of the taker 46. -/

def good_state : State := fun a =>
  if a = 11 then { lamports := 1000000, owner := system_program_id, data := .rawData 0 }
  else if a = 12 then { lamports := 500000, owner := system_program_id, data := .rawData 0 }
  else if a = 5635 then
    { lamports := 5000, owner := program_id,
      data := .escrowData
        { maker := 11, mint_a := 21, mint_b := 22,
          amount_to_receive := 100, amount_to_give := 500, bump := 1 } }
  else if a = 31 then
    { lamports := 2000, owner := token_program_id,
      data := .tokenData { mint := 21, owner := 5635, amount := 500 } }
  else if a = 41 then
    { lamports := 3000, owner := token_program_id,
      data := .tokenData { mint := 22, owner := 12, amount := 100 } }
  else if a = 42 then
    { lamports := 3000, owner := token_program_id,
      data := .tokenData { mint := 22, owner := 11, amount := 0 } }
  else if a = 43 then
    { lamports := 3000, owner := token_program_id,
      data := .tokenData { mint := 21, owner := 12, amount := 0 } }
  else if a = 44 then
    { lamports := 3000, owner := token_program_id,
      data := .tokenData { mint := 21, owner := 11, amount := 0 } }
  else if a = 45 then
    { lamports := 3000, owner := token_program_id,
      data := .tokenData { mint := 22, owner := 11, amount := 100 } }
  else if a = 46 then
    { lamports := 3000, owner := token_program_id,
      data := .tokenData { mint := 22, owner := 12, amount := 5 } }
  else dead_account

/-- The well-formed `Take` account list for `good_state`. -/
def take_accounts : List AccountMeta :=
  [⟨12, true⟩, ⟨11, false⟩, ⟨21, false⟩, ⟨22, false⟩, ⟨5635, false⟩,
   ⟨41, false⟩, ⟨42, false⟩, ⟨43, false⟩, ⟨31, false⟩, ⟨2000, false⟩]

/-- The well-formed `Refund` account list for `good_state`. -/
def refund_accounts : List AccountMeta :=
  [⟨11, true⟩, ⟨21, false⟩, ⟨22, false⟩, ⟨5635, false⟩, ⟨44, false⟩,
   ⟨31, false⟩, ⟨2000, false⟩]

example : result_is_ok (process_take_instruction good_state take_accounts) = true := by decide

example : result_account (process_take_instruction good_state take_accounts) 42 =
    some { lamports := 3000, owner := token_program_id,
           data := .tokenData { mint := 22, owner := 11, amount := 100 } } := by decide

example : result_account (process_take_instruction good_state take_accounts) 43 =
    some { lamports := 3000, owner := token_program_id,
           data := .tokenData { mint := 21, owner := 12, amount := 500 } } := by decide

example : result_account (process_take_instruction good_state take_accounts) 31 =
    some dead_account := by decide

example : result_account (process_take_instruction good_state take_accounts) 5635 =
    some dead_account := by decide

example : result_account (process_take_instruction good_state take_accounts) 11 =
    some { lamports := 1007000, owner := system_program_id, data := .rawData 0 } := by decide

example : result_is_ok (process_refund_instruction good_state refund_accounts) = true := by
  decide

example : result_account (process_refund_instruction good_state refund_accounts) 44 =
    some { lamports := 3000, owner := token_program_id,
           data := .tokenData { mint := 21, owner := 11, amount := 500 } } := by decide

/-! Basic lemmas about the state primitives. -/

theorem upd_self (s : State) (a : Address) (acc : Account) : upd s a acc a = acc := by
  simp [upd]

theorem upd_other (s : State) (a : Address) (acc : Account) {b : Address} (h : b ≠ a) :
    upd s a acc b = s b := by
  simp [upd, h]

theorem set_token_amount_other (s : State) (a : Address) (n : Nat) {b : Address} (h : b ≠ a) :
    set_token_amount s a n b = s b := by
  unfold set_token_amount
  cases hd : (s a).data <;> simp only [hd]
  exact upd_other _ _ _ h

theorem set_token_amount_lamports (s : State) (a : Address) (n : Nat) (b : Address) :
    (set_token_amount s a n b).lamports = (s b).lamports := by
  unfold set_token_amount
  cases hd : (s a).data <;> simp only [hd]
  by_cases hb : b = a
  · subst hb; rw [upd_self]
  · rw [upd_other _ _ _ hb]

theorem set_token_amount_owner (s : State) (a : Address) (n : Nat) (b : Address) :
    (set_token_amount s a n b).owner = (s b).owner := by
  unfold set_token_amount
  cases hd : (s a).data <;> simp only [hd]
  by_cases hb : b = a
  · subst hb; rw [upd_self]
  · rw [upd_other _ _ _ hb]

theorem set_token_amount_self {s : State} {a : Address} {t : TokenAccount} (n : Nat)
    (h : token_account_of s a = some t) :
    set_token_amount s a n a =
      { s a with data := .tokenData { t with amount := n } } := by
  have hd : (s a).data = .tokenData t := by
    unfold token_account_of at h
    split at h
    · cases hd : (s a).data <;> simp [hd] at h
      rw [h]
    · exact absurd h (by simp)
  unfold set_token_amount
  rw [hd]
  exact upd_self _ _ _

theorem token_account_of_owner {s : State} {a : Address} {t : TokenAccount}
    (h : token_account_of s a = some t) : (s a).owner = token_program_id := by
  unfold token_account_of at h
  split at h
  · assumption
  · exact absurd h (by simp)

theorem token_account_of_data {s : State} {a : Address} {t : TokenAccount}
    (h : token_account_of s a = some t) : (s a).data = .tokenData t := by
  unfold token_account_of at h
  split at h
  · cases hd : (s a).data <;> simp [hd] at h
    rw [h]
  · exact absurd h (by simp)

theorem token_account_of_set_token_amount {s : State} {a : Address} {t : TokenAccount}
    (n : Nat) (h : token_account_of s a = some t) :
    token_account_of (set_token_amount s a n) a = some { t with amount := n } := by
  rw [token_account_of, set_token_amount_self n h]
  simp [token_account_of_owner h]

/-- The derived escrow address never coincides with the maker seed. -/
theorem derive_address_ne_maker (m b : Nat) : derive_address m b ≠ m := by
  show 2 * (m * 256 + b % 256) + 1 ≠ m
  omega

/-- Elimination principle for a successful token transfer: all the guards held
and the result state is the explicit debit/credit (or the unchanged state for a
self-transfer). -/
theorem spl_transfer_ok {s s' : State} {source destination authority : Address}
    {sg : Bool} {amount : Nat}
    (h : spl_transfer s source destination authority sg amount = .ok s') :
    ∃ src dst, token_account_of s source = some src ∧
      token_account_of s destination = some dst ∧
      amount ≤ src.amount ∧ src.mint = dst.mint ∧ authority = src.owner ∧ sg = true ∧
      ((source = destination ∧ s' = s) ∨
       (source ≠ destination ∧ dst.amount + amount ≤ u64_max ∧
        s' = set_token_amount (set_token_amount s source (src.amount - amount))
          destination (dst.amount + amount))) := by
  unfold spl_transfer at h
  split at h
  case _ src dst hsrc hdst =>
    by_cases h1 : src.amount < amount
    · rw [if_pos h1] at h; exact absurd h (by simp)
    rw [if_neg h1] at h
    by_cases h2 : src.mint ≠ dst.mint
    · rw [if_pos h2] at h; exact absurd h (by simp)
    rw [if_neg h2] at h
    by_cases h3 : authority ≠ src.owner
    · rw [if_pos h3] at h; exact absurd h (by simp)
    rw [if_neg h3] at h
    by_cases h4 : sg = false
    · rw [if_pos h4] at h; exact absurd h (by simp)
    rw [if_neg h4] at h
    push_neg at h1 h2 h3
    have hsg : sg = true := by revert h4; cases sg <;> simp
    by_cases h5 : source = destination
    · rw [if_pos h5] at h
      exact ⟨src, dst, hsrc, hdst, h1, h2, h3, hsg,
        Or.inl ⟨h5, (Except.ok.injEq _ _).mp h.symm⟩⟩
    rw [if_neg h5] at h
    by_cases h6 : u64_max < dst.amount + amount
    · rw [if_pos h6] at h; exact absurd h (by simp)
    rw [if_neg h6] at h
    push_neg at h6
    exact ⟨src, dst, hsrc, hdst, h1, h2, h3, hsg,
      Or.inr ⟨h5, h6, ((Except.ok.injEq _ _).mp h).symm⟩⟩
  case _ =>
    exact absurd h (by simp)

theorem spl_transfer_ok_lamports {s s' : State} {source destination authority : Address}
    {sg : Bool} {amount : Nat}
    (h : spl_transfer s source destination authority sg amount = .ok s') (b : Address) :
    (s' b).lamports = (s b).lamports := by
  obtain ⟨src, dst, -, -, -, -, -, -, hcase⟩ := spl_transfer_ok h
  rcases hcase with ⟨-, rfl⟩ | ⟨-, -, rfl⟩
  · rfl
  · rw [set_token_amount_lamports, set_token_amount_lamports]

theorem spl_transfer_ok_owner {s s' : State} {source destination authority : Address}
    {sg : Bool} {amount : Nat}
    (h : spl_transfer s source destination authority sg amount = .ok s') (b : Address) :
    (s' b).owner = (s b).owner := by
  obtain ⟨src, dst, -, -, -, -, -, -, hcase⟩ := spl_transfer_ok h
  rcases hcase with ⟨-, rfl⟩ | ⟨-, -, rfl⟩
  · rfl
  · rw [set_token_amount_owner, set_token_amount_owner]

theorem spl_transfer_ok_frame {s s' : State} {source destination authority : Address}
    {sg : Bool} {amount : Nat}
    (h : spl_transfer s source destination authority sg amount = .ok s') {b : Address}
    (hb1 : b ≠ source) (hb2 : b ≠ destination) : s' b = s b := by
  obtain ⟨src, dst, -, -, -, -, -, -, hcase⟩ := spl_transfer_ok h
  rcases hcase with ⟨-, rfl⟩ | ⟨-, -, rfl⟩
  · rfl
  · rw [set_token_amount_other _ _ _ hb2, set_token_amount_other _ _ _ hb1]

/-- Elimination principle for a successful token-account close. -/
theorem spl_close_account_ok {s s' : State} {account destination authority : Address}
    {sg : Bool}
    (h : spl_close_account s account destination authority sg = .ok s') :
    ∃ tok, token_account_of s account = some tok ∧ account ≠ destination ∧
      tok.amount = 0 ∧ authority = tok.owner ∧ sg = true ∧
      (s destination).lamports + (s account).lamports ≤ u64_max ∧
      s' = upd (upd s destination
        { s destination with lamports := (s destination).lamports + (s account).lamports })
        account dead_account := by
  unfold spl_close_account at h
  split at h
  case _ tok htok =>
    by_cases h1 : account = destination
    · rw [if_pos h1] at h; exact absurd h (by simp)
    rw [if_neg h1] at h
    by_cases h2 : tok.amount ≠ 0
    · rw [if_pos h2] at h; exact absurd h (by simp)
    rw [if_neg h2] at h
    by_cases h3 : authority ≠ tok.owner
    · rw [if_pos h3] at h; exact absurd h (by simp)
    rw [if_neg h3] at h
    by_cases h4 : sg = false
    · rw [if_pos h4] at h; exact absurd h (by simp)
    rw [if_neg h4] at h
    by_cases h5 : u64_max < (s destination).lamports + (s account).lamports
    · rw [if_pos h5] at h; exact absurd h (by simp)
    rw [if_neg h5] at h
    push_neg at h2 h3 h5
    have hsg : sg = true := by revert h4; cases sg <;> simp
    exact ⟨tok, htok, h1, h2, h3, hsg, h5, ((Except.ok.injEq _ _).mp h).symm⟩
  case _ =>
    exact absurd h (by simp)

/-- Elimination principle for a successful `Take`: every validation check
held, the three token-program operations succeeded in order, and the final
state is the lamport credit plus record close applied to their result. -/
theorem process_take_ok {s s' : State} {evs : List Event}
    {a0 a1 a2 a3 a4 a5 a6 a7 a8 a9 : AccountMeta} {rest : List AccountMeta}
    (h : process_take_instruction s
      (a0 :: a1 :: a2 :: a3 :: a4 :: a5 :: a6 :: a7 :: a8 :: a9 :: rest) = ⟨.ok s', evs⟩) :
    ∃ e tb mb ta ea s1 s2 s3,
      a0.is_signer = true ∧
      owned_by s a4.address program_id ∧
      Escrow.from_account_info s a4.address = .ok e ∧
      e.maker = a1.address ∧
      derive_address a1.address e.bump = a4.address ∧
      token_account_of s a5.address = some tb ∧ tb.owner = a0.address ∧ tb.mint = a3.address ∧
      token_account_of s a6.address = some mb ∧ mb.owner = a1.address ∧ mb.mint = a3.address ∧
      token_account_of s a7.address = some ta ∧ ta.owner = a0.address ∧ ta.mint = a2.address ∧
      token_account_of s a8.address = some ea ∧ ea.owner = a4.address ∧ ea.mint = a2.address ∧
      e.amount_to_give ≤ ea.amount ∧
      spl_transfer s a5.address a6.address a0.address a0.is_signer e.amount_to_receive =
        .ok s1 ∧
      spl_transfer s1 a8.address a7.address a4.address true e.amount_to_give = .ok s2 ∧
      spl_close_account s2 a8.address a1.address a4.address true = .ok s3 ∧
      s' = close_account_view (set_lamports s3 a1.address
        (sat_add_u64 (s3 a1.address).lamports (s3 a4.address).lamports)) a4.address ∧
      evs = [Event.transfer a5.address a6.address a0.address e.amount_to_receive,
             Event.transfer a8.address a7.address a4.address e.amount_to_give,
             Event.close_token_account a8.address a1.address] := by
  simp only [process_take_instruction] at h
  by_cases hsig0 : a0.is_signer = false
  case pos => rw [if_pos hsig0] at h; exact absurd h (by simp)
  rw [if_neg hsig0] at h
  have hsig : a0.is_signer = true := by revert hsig0; cases a0.is_signer <;> simp
  by_cases hown : owned_by s a4.address program_id
  case neg => rw [if_pos hown] at h; exact absurd h (by simp)
  rw [if_neg (not_not_intro hown)] at h
  rcases hE : Escrow.from_account_info s a4.address with eE | e
  · simp only [hE] at h; exact absurd h (by simp)
  simp only [hE] at h
  by_cases hmk : e.maker = a1.address
  case neg => rw [if_pos hmk] at h; exact absurd h (by simp)
  rw [if_neg (not_not_intro hmk)] at h
  by_cases hder : derive_address a1.address e.bump = a4.address
  case neg => rw [if_pos hder] at h; exact absurd h (by simp)
  rw [if_neg (not_not_intro hder)] at h
  rcases hTB : token_account_of s a5.address with _ | tb
  · simp only [hTB] at h; exact absurd h (by simp)
  simp only [hTB] at h
  by_cases hc5 : tb.owner ≠ a0.address ∨ tb.mint ≠ a3.address
  case pos => rw [if_pos hc5] at h; exact absurd h (by simp)
  rw [if_neg hc5] at h
  push_neg at hc5
  obtain ⟨htb1, htb2⟩ := hc5
  rcases hMB : token_account_of s a6.address with _ | mb
  · simp only [hMB] at h; exact absurd h (by simp)
  simp only [hMB] at h
  by_cases hc6 : mb.owner ≠ a1.address ∨ mb.mint ≠ a3.address
  case pos => rw [if_pos hc6] at h; exact absurd h (by simp)
  rw [if_neg hc6] at h
  push_neg at hc6
  obtain ⟨hmb1, hmb2⟩ := hc6
  rcases hTA : token_account_of s a7.address with _ | ta
  · simp only [hTA] at h; exact absurd h (by simp)
  simp only [hTA] at h
  by_cases hc7 : ta.owner ≠ a0.address ∨ ta.mint ≠ a2.address
  case pos => rw [if_pos hc7] at h; exact absurd h (by simp)
  rw [if_neg hc7] at h
  push_neg at hc7
  obtain ⟨hta1, hta2⟩ := hc7
  rcases hEA : token_account_of s a8.address with _ | ea
  · simp only [hEA] at h; exact absurd h (by simp)
  simp only [hEA] at h
  by_cases hc8 : ea.owner ≠ a4.address ∨ ea.mint ≠ a2.address ∨ ea.amount < e.amount_to_give
  case pos => rw [if_pos hc8] at h; exact absurd h (by simp)
  rw [if_neg hc8] at h
  push_neg at hc8
  obtain ⟨hea1, hea2, hea3⟩ := hc8
  rcases h1 : spl_transfer s a5.address a6.address a0.address a0.is_signer
      e.amount_to_receive with e1 | s1
  · simp only [h1] at h; exact absurd h (by simp)
  simp only [h1] at h
  rw [decide_eq_true hder] at h
  rcases h2 : spl_transfer s1 a8.address a7.address a4.address true e.amount_to_give
      with e2 | s2
  · simp only [h2] at h; exact absurd h (by simp)
  simp only [h2] at h
  rcases h3 : spl_close_account s2 a8.address a1.address a4.address true with e3 | s3
  · simp only [h3] at h; exact absurd h (by simp)
  simp only [h3] at h
  obtain ⟨hok, hev⟩ := (Outcome.mk.injEq _ _ _ _).mp h
  exact ⟨e, tb, mb, ta, ea, s1, s2, s3, hsig, hown, rfl, hmk, hder, rfl, htb1, htb2,
    rfl, hmb1, hmb2, rfl, hta1, hta2, rfl, hea1, hea2, hea3, h1, h2, h3,
    ((Except.ok.injEq _ _).mp hok).symm, hev.symm⟩

/-- Elimination principle for a successful `Refund`. -/
theorem process_refund_ok {s s' : State} {evs : List Event}
    {a0 a1 a2 a3 a4 a5 a6 : AccountMeta} {rest : List AccountMeta}
    (h : process_refund_instruction s
      (a0 :: a1 :: a2 :: a3 :: a4 :: a5 :: a6 :: rest) = ⟨.ok s', evs⟩) :
    ∃ e ma ea s1 s2,
      a0.is_signer = true ∧
      owned_by s a3.address program_id ∧
      Escrow.from_account_info s a3.address = .ok e ∧
      e.maker = a0.address ∧ e.mint_a = a1.address ∧ e.mint_b = a2.address ∧
      derive_address a0.address e.bump = a3.address ∧
      token_account_of s a4.address = some ma ∧ ma.owner = a0.address ∧ ma.mint = a1.address ∧
      token_account_of s a5.address = some ea ∧ ea.owner = a3.address ∧ ea.mint = a1.address ∧
      e.amount_to_give ≤ ea.amount ∧
      spl_transfer s a5.address a4.address a3.address true e.amount_to_give = .ok s1 ∧
      spl_close_account s1 a5.address a0.address a3.address true = .ok s2 ∧
      s' = close_account_view (set_lamports s2 a0.address
        (sat_add_u64 (s2 a0.address).lamports (s2 a3.address).lamports)) a3.address ∧
      evs = [Event.transfer a5.address a4.address a3.address e.amount_to_give,
             Event.close_token_account a5.address a0.address] := by
  simp only [process_refund_instruction] at h
  by_cases hsig0 : a0.is_signer = false
  case pos => rw [if_pos hsig0] at h; exact absurd h (by simp)
  rw [if_neg hsig0] at h
  have hsig : a0.is_signer = true := by revert hsig0; cases a0.is_signer <;> simp
  by_cases hown : owned_by s a3.address program_id
  case neg => rw [if_pos hown] at h; exact absurd h (by simp)
  rw [if_neg (not_not_intro hown)] at h
  rcases hE : Escrow.from_account_info s a3.address with eE | e
  · simp only [hE] at h; exact absurd h (by simp)
  simp only [hE] at h
  by_cases hc3 : e.maker ≠ a0.address ∨ e.mint_a ≠ a1.address ∨ e.mint_b ≠ a2.address
  case pos => rw [if_pos hc3] at h; exact absurd h (by simp)
  rw [if_neg hc3] at h
  push_neg at hc3
  obtain ⟨hmk, hma, hmb⟩ := hc3
  by_cases hder : derive_address a0.address e.bump = a3.address
  case neg => rw [if_pos hder] at h; exact absurd h (by simp)
  rw [if_neg (not_not_intro hder)] at h
  rcases hMA : token_account_of s a4.address with _ | ma
  · simp only [hMA] at h; exact absurd h (by simp)
  simp only [hMA] at h
  by_cases hc5 : ma.owner ≠ a0.address ∨ ma.mint ≠ a1.address
  case pos => rw [if_pos hc5] at h; exact absurd h (by simp)
  rw [if_neg hc5] at h
  push_neg at hc5
  obtain ⟨hma1, hma2⟩ := hc5
  rcases hEA : token_account_of s a5.address with _ | ea
  · simp only [hEA] at h; exact absurd h (by simp)
  simp only [hEA] at h
  by_cases hc6 : ea.owner ≠ a3.address ∨ ea.mint ≠ a1.address ∨ ea.amount < e.amount_to_give
  case pos => rw [if_pos hc6] at h; exact absurd h (by simp)
  rw [if_neg hc6] at h
  push_neg at hc6
  obtain ⟨hea1, hea2, hea3⟩ := hc6
  rw [decide_eq_true hder] at h
  rcases h1 : spl_transfer s a5.address a4.address a3.address true e.amount_to_give
      with e1 | s1
  · simp only [h1] at h; exact absurd h (by simp)
  simp only [h1] at h
  rcases h2 : spl_close_account s1 a5.address a0.address a3.address true with e2 | s2
  · simp only [h2] at h; exact absurd h (by simp)
  simp only [h2] at h
  obtain ⟨hok, hev⟩ := (Outcome.mk.injEq _ _ _ _).mp h
  exact ⟨e, ma, ea, s1, s2, hsig, hown, rfl, hmk, hma, hmb, hder, rfl, hma1, hma2,
    rfl, hea1, hea2, hea3, h1, h2, ((Except.ok.injEq _ _).mp hok).symm, hev.symm⟩

/-! Frame lemmas about how the primitives act on token views and lamports. -/

theorem set_lamports_other (s : State) (a : Address) (n : Nat) {b : Address} (h : b ≠ a) :
    set_lamports s a n b = s b := upd_other _ _ _ h

theorem set_lamports_self (s : State) (a : Address) (n : Nat) :
    set_lamports s a n a = { s a with lamports := n } := upd_self _ _ _

theorem close_account_view_self (s : State) (a : Address) :
    close_account_view s a a = dead_account := upd_self _ _ _

theorem close_account_view_other (s : State) (a : Address) {b : Address} (h : b ≠ a) :
    close_account_view s a b = s b := upd_other _ _ _ h

theorem token_account_of_eq_of_acc {s s' : State} {b : Address} (h : s' b = s b) :
    token_account_of s' b = token_account_of s b := by
  unfold token_account_of; rw [h]

theorem token_account_of_congr {s s' : State} {b : Address}
    (ho : (s' b).owner = (s b).owner) (hd : (s' b).data = (s b).data) :
    token_account_of s' b = token_account_of s b := by
  unfold token_account_of; rw [ho, hd]

theorem token_account_of_set_lamports (s : State) (a : Address) (n : Nat) (b : Address) :
    token_account_of (set_lamports s a n) b = token_account_of s b := by
  by_cases hb : b = a
  · subst hb
    exact token_account_of_congr (by rw [set_lamports_self]) (by rw [set_lamports_self])
  · exact token_account_of_eq_of_acc (set_lamports_other _ _ _ hb)

theorem token_account_of_set_token_other (s : State) (a : Address) (n : Nat) {b : Address}
    (h : b ≠ a) : token_account_of (set_token_amount s a n) b = token_account_of s b :=
  token_account_of_eq_of_acc (set_token_amount_other _ _ _ h)

theorem spl_transfer_ok_token_frame {s s' : State} {source destination authority : Address}
    {sg : Bool} {amount : Nat}
    (h : spl_transfer s source destination authority sg amount = .ok s') {b : Address}
    (hb1 : b ≠ source) (hb2 : b ≠ destination) :
    token_account_of s' b = token_account_of s b :=
  token_account_of_eq_of_acc (spl_transfer_ok_frame h hb1 hb2)

/-- On a non-self transfer, the destination's token amount grows by the
transferred amount. -/
theorem spl_transfer_ok_dst_token {s s' : State} {source destination authority : Address}
    {sg : Bool} {amount : Nat}
    (h : spl_transfer s source destination authority sg amount = .ok s')
    (hne : source ≠ destination) :
    ∃ dst, token_account_of s destination = some dst ∧
      token_account_of s' destination = some { dst with amount := dst.amount + amount } := by
  obtain ⟨src, dst, hsrc, hdst, -, -, -, -, hcase⟩ := spl_transfer_ok h
  rcases hcase with ⟨heq, -⟩ | ⟨-, -, rfl⟩
  · exact absurd heq hne
  · refine ⟨dst, hdst, ?_⟩
    have hinner : token_account_of (set_token_amount s source (src.amount - amount))
        destination = some dst := by
      rw [token_account_of_set_token_other _ _ _ (Ne.symm hne)]
      exact hdst
    exact token_account_of_set_token_amount _ hinner

theorem spl_close_account_ok_dead {s s' : State} {account destination authority : Address}
    {sg : Bool}
    (h : spl_close_account s account destination authority sg = .ok s') :
    s' account = dead_account := by
  obtain ⟨tok, -, -, -, -, -, -, rfl⟩ := spl_close_account_ok h
  exact upd_self _ _ _

theorem spl_close_account_ok_frame {s s' : State} {account destination authority : Address}
    {sg : Bool}
    (h : spl_close_account s account destination authority sg = .ok s') {b : Address}
    (hb1 : b ≠ account) (hb2 : b ≠ destination) : s' b = s b := by
  obtain ⟨tok, -, -, -, -, -, -, rfl⟩ := spl_close_account_ok h
  rw [upd_other _ _ _ hb1, upd_other _ _ _ hb2]

theorem spl_close_account_ok_dest {s s' : State} {account destination authority : Address}
    {sg : Bool}
    (h : spl_close_account s account destination authority sg = .ok s') :
    s' destination =
      { s destination with
        lamports := (s destination).lamports + (s account).lamports } := by
  obtain ⟨tok, -, hne, -, -, -, -, rfl⟩ := spl_close_account_ok h
  rw [upd_other _ _ _ (Ne.symm hne), upd_self]

theorem spl_close_account_ok_token {s s' : State} {account destination authority : Address}
    {sg : Bool}
    (h : spl_close_account s account destination authority sg = .ok s') {b : Address}
    (hb : b ≠ account) : token_account_of s' b = token_account_of s b := by
  by_cases hbd : b = destination
  · subst hbd
    exact token_account_of_congr (by rw [spl_close_account_ok_dest h])
      (by rw [spl_close_account_ok_dest h])
  · exact token_account_of_eq_of_acc (spl_close_account_ok_frame h hb hbd)

theorem spl_close_account_ok_lamports_other {s s' : State}
    {account destination authority : Address} {sg : Bool}
    (h : spl_close_account s account destination authority sg = .ok s') {b : Address}
    (hb1 : b ≠ account) (hb2 : b ≠ destination) :
    (s' b).lamports = (s b).lamports := by
  rw [spl_close_account_ok_frame h hb1 hb2]

/-- Claim C1 (amended): a successful `Take` in which the four supplied token
accounts are pairwise distinct pays the maker's asset-B account exactly
`amount_to_receive`, pays the taker's asset-A account exactly
`amount_to_give`, leaves custody and record accounts dead, and credits the
maker's wallet with the custody account's lamports (checked) plus the escrow
record's lamports (saturating). -/
theorem take_success_effects
    {s s' : State} {evs : List Event} {e : Escrow}
    {a0 a1 a2 a3 a4 a5 a6 a7 a8 a9 : AccountMeta} {rest : List AccountMeta}
    (h : process_take_instruction s
      (a0 :: a1 :: a2 :: a3 :: a4 :: a5 :: a6 :: a7 :: a8 :: a9 :: rest) = ⟨.ok s', evs⟩)
    (hE : Escrow.from_account_info s a4.address = .ok e)
    (h56 : a5.address ≠ a6.address) (h57 : a5.address ≠ a7.address)
    (h58 : a5.address ≠ a8.address) (h67 : a6.address ≠ a7.address)
    (h68 : a6.address ≠ a8.address) (h78 : a7.address ≠ a8.address) :
    tok_amount s' a6.address = tok_amount s a6.address + e.amount_to_receive ∧
    tok_amount s' a7.address = tok_amount s a7.address + e.amount_to_give ∧
    s' a8.address = dead_account ∧
    s' a4.address = dead_account ∧
    (s' a1.address).lamports =
      sat_add_u64 ((s a1.address).lamports + (s a8.address).lamports)
        (s a4.address).lamports := by
  obtain ⟨e', tb, mb, ta, ea, s1, s2, s3, hsig, hown, hE', hmk, hder, hTB, htb1, htb2,
    hMB, hmb1, hmb2, hTA, hta1, hta2, hEA, hea1, hea2, hea3, h1, h2, h3, hs', hev⟩ :=
    process_take_ok h
  have hee : e' = e := by
    rw [hE'] at hE
    exact Except.ok.inj hE
  subst hee
  have hEo : (s a4.address).owner = program_id := hown
  have htokprog : program_id ≠ token_program_id := by
    simp [token_program_id, program_id]
  have h6E : a6.address ≠ a4.address := by
    intro heq
    have := token_account_of_owner hMB
    rw [heq, hEo] at this
    exact htokprog this
  have h7E : a7.address ≠ a4.address := by
    intro heq
    have := token_account_of_owner hTA
    rw [heq, hEo] at this
    exact htokprog this
  have h8E : a8.address ≠ a4.address := by
    intro heq
    have := token_account_of_owner hEA
    rw [heq, hEo] at this
    exact htokprog this
  have h1E : a1.address ≠ a4.address := by
    intro heq
    rw [← heq] at hder
    exact derive_address_ne_maker a1.address e'.bump hder
  have h81 : a8.address ≠ a1.address := by
    obtain ⟨tok, -, hne, -⟩ := spl_close_account_ok h3
    exact hne
  constructor
  · -- the maker's asset-B account gains amount_to_receive
    obtain ⟨mb', hmb0, hmb1'⟩ := spl_transfer_ok_dst_token h1 h56
    have hstep : token_account_of s' a6.address = some
        { mb' with amount := mb'.amount + e'.amount_to_receive } := by
      rw [hs']
      rw [token_account_of_eq_of_acc (close_account_view_other _ _ h6E),
        token_account_of_set_lamports,
        spl_close_account_ok_token h3 h68,
        spl_transfer_ok_token_frame h2 h68 h67]
      exact hmb1'
    rw [tok_amount, tok_amount, hstep, hmb0]
  constructor
  · -- the taker's asset-A account gains amount_to_give
    obtain ⟨ta', hta0, hta1'⟩ := spl_transfer_ok_dst_token h2 (Ne.symm h78)
    have hta0' : token_account_of s a7.address = some ta' := by
      rw [← spl_transfer_ok_token_frame h1 (Ne.symm h57) (Ne.symm h67)]
      exact hta0
    have hstep : token_account_of s' a7.address = some
        { ta' with amount := ta'.amount + e'.amount_to_give } := by
      rw [hs']
      rw [token_account_of_eq_of_acc (close_account_view_other _ _ h7E),
        token_account_of_set_lamports,
        spl_close_account_ok_token h3 h78]
      exact hta1'
    rw [tok_amount, tok_amount, hstep, hta0']
  constructor
  · -- the custody account is dead
    rw [hs', close_account_view_other _ _ h8E, set_lamports_other _ _ _ h81,
      spl_close_account_ok_dead h3]
  constructor
  · -- the escrow record account is dead
    rw [hs', close_account_view_self]
  · -- the maker's lamports
    rw [hs', close_account_view_other _ _ h1E, set_lamports_self]
    have hm3 : (s3 a1.address).lamports = (s a1.address).lamports + (s a8.address).lamports := by
      rw [spl_close_account_ok_dest h3]
      show (s2 a1.address).lamports + (s2 a8.address).lamports = _
      rw [spl_transfer_ok_lamports h2, spl_transfer_ok_lamports h1,
        spl_transfer_ok_lamports h2, spl_transfer_ok_lamports h1]
    have hE3 : (s3 a4.address).lamports = (s a4.address).lamports := by
      rw [spl_close_account_ok_lamports_other h3 h8E.symm ..]
      · rw [spl_transfer_ok_lamports h2, spl_transfer_ok_lamports h1]
      · exact h1E.symm
    rw [hm3, hE3]

/-- Claim C1 counterexample: a maker may `Take` their own escrow supplying one
and the same account as both asset-B accounts; the instruction succeeds, yet
that account's balance (the maker's asset-B balance) is unchanged although the
record's `amount_to_receive` is 100. -/
theorem take_alias_no_increase :
    result_is_ok (process_take_instruction good_state
      [⟨11, true⟩, ⟨11, false⟩, ⟨21, false⟩, ⟨22, false⟩, ⟨5635, false⟩,
       ⟨45, false⟩, ⟨45, false⟩, ⟨44, false⟩, ⟨31, false⟩, ⟨2000, false⟩]) = true ∧
    result_account (process_take_instruction good_state
      [⟨11, true⟩, ⟨11, false⟩, ⟨21, false⟩, ⟨22, false⟩, ⟨5635, false⟩,
       ⟨45, false⟩, ⟨45, false⟩, ⟨44, false⟩, ⟨31, false⟩, ⟨2000, false⟩]) 45 =
      some { lamports := 3000, owner := token_program_id,
             data := .tokenData { mint := 22, owner := 11, amount := 100 } } ∧
    tok_amount good_state 45 = 100 ∧
    Escrow.from_account_info good_state 5635 =
      .ok { maker := 11, mint_a := 21, mint_b := 22,
            amount_to_receive := 100, amount_to_give := 500, bump := 1 } := by
  refine ⟨by decide, by decide, by decide, rfl⟩

/-- The state after the canonical successful `Take` on `good_state`. -/
def take_good_final : State :=
  outcome_state_or (process_take_instruction good_state take_accounts) good_state

/-- Witness for `take_success_effects` at the canonical scenario. -/
theorem take_success_effects_witness :
    tok_amount take_good_final 42 = tok_amount good_state 42 + 100 ∧
    tok_amount take_good_final 43 = tok_amount good_state 43 + 500 ∧
    take_good_final 31 = dead_account ∧
    take_good_final 5635 = dead_account ∧
    (take_good_final 11).lamports =
      sat_add_u64 ((good_state 11).lamports + (good_state 31).lamports)
        (good_state 5635).lamports := by
  have h : process_take_instruction good_state take_accounts =
      ⟨.ok take_good_final, (process_take_instruction good_state take_accounts).events⟩ :=
    rfl
  exact take_success_effects h
    (show Escrow.from_account_info good_state (AccountMeta.mk 5635 false).address =
      Except.ok { maker := 11, mint_a := 21, mint_b := 22, amount_to_receive := 100,
                  amount_to_give := 500, bump := 1 } from rfl)
    (by decide) (by decide) (by decide) (by decide) (by decide) (by decide)

/-! The validation sequences as the spec lists them (section 4.3 steps 1-8 for
`Take`, section 4.4 steps 1-6 for `Refund`), written as first-failing-check
scanners, and the effect tails of the two handlers.  The lemmas below show the
handlers are exactly "scan the checks in this order; on the first failure
return its error having performed nothing; otherwise run the effects". -/

def take_spec_checks (s : State) (a0 a1 a2 a3 a4 a5 a6 a7 a8 : AccountMeta) :
    Option ProgramError :=
  if a0.is_signer = false then some .MissingRequiredSignature
  else if ¬ owned_by s a4.address program_id then some .IllegalOwner
  else
    match Escrow.from_account_info s a4.address with
    | .error e => some e
    | .ok est =>
      if est.maker ≠ a1.address then some .InvalidAccountData
      else if derive_address a1.address est.bump ≠ a4.address then some .InvalidSeeds
      else
        match token_account_of s a5.address with
        | none => some .InvalidAccountData
        | some tb =>
          if tb.owner ≠ a0.address ∨ tb.mint ≠ a3.address then some .InvalidAccountData
          else
            match token_account_of s a6.address with
            | none => some .InvalidAccountData
            | some mb =>
              if mb.owner ≠ a1.address ∨ mb.mint ≠ a3.address then some .InvalidAccountData
              else
                match token_account_of s a7.address with
                | none => some .InvalidAccountData
                | some ta =>
                  if ta.owner ≠ a0.address ∨ ta.mint ≠ a2.address then
                    some .InvalidAccountData
                  else
                    match token_account_of s a8.address with
                    | none => some .InvalidAccountData
                    | some ea =>
                      if ea.owner ≠ a4.address ∨ ea.mint ≠ a2.address ∨
                          ea.amount < est.amount_to_give then
                        some .InvalidAccountData
                      else none

def refund_spec_checks (s : State) (a0 a1 a2 a3 a4 a5 : AccountMeta) :
    Option ProgramError :=
  if a0.is_signer = false then some .MissingRequiredSignature
  else if ¬ owned_by s a3.address program_id then some .IllegalOwner
  else
    match Escrow.from_account_info s a3.address with
    | .error e => some e
    | .ok est =>
      if est.maker ≠ a0.address ∨ est.mint_a ≠ a1.address ∨ est.mint_b ≠ a2.address then
        some .InvalidAccountData
      else if derive_address a0.address est.bump ≠ a3.address then some .InvalidSeeds
      else
        match token_account_of s a4.address with
        | none => some .InvalidAccountData
        | some ma =>
          if ma.owner ≠ a0.address ∨ ma.mint ≠ a1.address then some .InvalidAccountData
          else
            match token_account_of s a5.address with
            | none => some .InvalidAccountData
            | some ea =>
              if ea.owner ≠ a3.address ∨ ea.mint ≠ a1.address ∨
                  ea.amount < est.amount_to_give then
                some .InvalidAccountData
              else none

/-- The effect tail of `Take` (lines 72-107 of `take.rs`). -/
def take_effects (s : State) (a0 a1 a4 a5 a6 a7 a8 : AccountMeta) (est : Escrow) : Outcome :=
  match spl_transfer s a5.address a6.address a0.address a0.is_signer
      est.amount_to_receive with
  | .error e => ⟨.error e, []⟩
  | .ok s1 =>
    let ev1 := Event.transfer a5.address a6.address a0.address est.amount_to_receive
    let pda_signed := decide (derive_address a1.address est.bump = a4.address)
    match spl_transfer s1 a8.address a7.address a4.address pda_signed
        est.amount_to_give with
    | .error e => ⟨.error e, [ev1]⟩
    | .ok s2 =>
      let ev2 := Event.transfer a8.address a7.address a4.address est.amount_to_give
      match spl_close_account s2 a8.address a1.address a4.address pda_signed with
      | .error e => ⟨.error e, [ev1, ev2]⟩
      | .ok s3 =>
        let ev3 := Event.close_token_account a8.address a1.address
        ⟨.ok (close_account_view (set_lamports s3 a1.address
          (sat_add_u64 (s3 a1.address).lamports (s3 a4.address).lamports)) a4.address),
         [ev1, ev2, ev3]⟩

/-- The effect tail of `Refund` (lines 64-91 of `refund.rs`). -/
def refund_effects (s : State) (a0 a1 a3 a4 a5 : AccountMeta) (est : Escrow) : Outcome :=
  let pda_signed := decide (derive_address a0.address est.bump = a3.address)
  match spl_transfer s a5.address a4.address a3.address pda_signed est.amount_to_give with
  | .error e => ⟨.error e, []⟩
  | .ok s1 =>
    let ev1 := Event.transfer a5.address a4.address a3.address est.amount_to_give
    match spl_close_account s1 a5.address a0.address a3.address pda_signed with
    | .error e => ⟨.error e, [ev1]⟩
    | .ok s2 =>
      let ev2 := Event.close_token_account a5.address a0.address
      ⟨.ok (close_account_view (set_lamports s2 a0.address
        (sat_add_u64 (s2 a0.address).lamports (s2 a3.address).lamports)) a3.address),
       [ev1, ev2]⟩

theorem take_checks_fail (s : State) (a0 a1 a2 a3 a4 a5 a6 a7 a8 a9 : AccountMeta)
    (rest : List AccountMeta) (er : ProgramError)
    (h : take_spec_checks s a0 a1 a2 a3 a4 a5 a6 a7 a8 = some er) :
    process_take_instruction s
      (a0 :: a1 :: a2 :: a3 :: a4 :: a5 :: a6 :: a7 :: a8 :: a9 :: rest) =
      ⟨.error er, []⟩ := by
  simp only [take_spec_checks] at h
  simp only [process_take_instruction]
  by_cases hsig : a0.is_signer = false
  · rw [if_pos hsig] at h
    rw [if_pos hsig, Option.some.inj h]
  rw [if_neg hsig] at h
  rw [if_neg hsig]
  by_cases hown : owned_by s a4.address program_id
  case neg =>
    rw [if_pos hown] at h
    rw [if_pos hown, Option.some.inj h]
  rw [if_neg (not_not_intro hown)] at h
  rw [if_neg (not_not_intro hown)]
  rcases hE : Escrow.from_account_info s a4.address with eE | est
  · simp only [hE] at h
    obtain rfl : er = eE := (Option.some.inj h).symm
    rfl
  simp only [hE] at h
  dsimp only
  by_cases hmk : est.maker = a1.address
  case neg =>
    rw [if_pos hmk] at h
    rw [if_pos hmk, Option.some.inj h]
  rw [if_neg (not_not_intro hmk)] at h
  rw [if_neg (not_not_intro hmk)]
  by_cases hder : derive_address a1.address est.bump = a4.address
  case neg =>
    rw [if_pos hder] at h
    rw [if_pos hder, Option.some.inj h]
  rw [if_neg (not_not_intro hder)] at h
  rw [if_neg (not_not_intro hder)]
  rcases hTB : token_account_of s a5.address with _ | tb
  · simp only [hTB] at h
    obtain rfl : er = .InvalidAccountData := (Option.some.inj h).symm
    rfl
  simp only [hTB] at h
  dsimp only
  by_cases hc5 : tb.owner ≠ a0.address ∨ tb.mint ≠ a3.address
  case pos =>
    rw [if_pos hc5] at h
    rw [if_pos hc5, Option.some.inj h]
  rw [if_neg hc5] at h
  rw [if_neg hc5]
  rcases hMB : token_account_of s a6.address with _ | mb
  · simp only [hMB] at h
    obtain rfl : er = .InvalidAccountData := (Option.some.inj h).symm
    rfl
  simp only [hMB] at h
  dsimp only
  by_cases hc6 : mb.owner ≠ a1.address ∨ mb.mint ≠ a3.address
  case pos =>
    rw [if_pos hc6] at h
    rw [if_pos hc6, Option.some.inj h]
  rw [if_neg hc6] at h
  rw [if_neg hc6]
  rcases hTA : token_account_of s a7.address with _ | ta
  · simp only [hTA] at h
    obtain rfl : er = .InvalidAccountData := (Option.some.inj h).symm
    rfl
  simp only [hTA] at h
  dsimp only
  by_cases hc7 : ta.owner ≠ a0.address ∨ ta.mint ≠ a2.address
  case pos =>
    rw [if_pos hc7] at h
    rw [if_pos hc7, Option.some.inj h]
  rw [if_neg hc7] at h
  rw [if_neg hc7]
  rcases hEA : token_account_of s a8.address with _ | ea
  · simp only [hEA] at h
    obtain rfl : er = .InvalidAccountData := (Option.some.inj h).symm
    rfl
  simp only [hEA] at h
  dsimp only
  by_cases hc8 : ea.owner ≠ a4.address ∨ ea.mint ≠ a2.address ∨
      ea.amount < est.amount_to_give
  case pos =>
    rw [if_pos hc8] at h
    rw [if_pos hc8, Option.some.inj h]
  rw [if_neg hc8] at h
  exact absurd h (by simp)

theorem take_checks_pass (s : State) (a0 a1 a2 a3 a4 a5 a6 a7 a8 a9 : AccountMeta)
    (rest : List AccountMeta)
    (h : take_spec_checks s a0 a1 a2 a3 a4 a5 a6 a7 a8 = none) :
    ∃ est, Escrow.from_account_info s a4.address = .ok est ∧
      process_take_instruction s
        (a0 :: a1 :: a2 :: a3 :: a4 :: a5 :: a6 :: a7 :: a8 :: a9 :: rest) =
        take_effects s a0 a1 a4 a5 a6 a7 a8 est := by
  simp only [take_spec_checks] at h
  simp only [process_take_instruction]
  by_cases hsig : a0.is_signer = false
  · rw [if_pos hsig] at h; exact absurd h (by simp)
  rw [if_neg hsig] at h
  rw [if_neg hsig]
  by_cases hown : owned_by s a4.address program_id
  case neg =>
    rw [if_pos hown] at h; exact absurd h (by simp)
  rw [if_neg (not_not_intro hown)] at h
  rw [if_neg (not_not_intro hown)]
  rcases hE : Escrow.from_account_info s a4.address with eE | est
  · simp only [hE] at h; exact absurd h (by simp)
  simp only [hE] at h
  dsimp only
  refine ⟨est, rfl, ?_⟩
  by_cases hmk : est.maker = a1.address
  case neg =>
    rw [if_pos hmk] at h; exact absurd h (by simp)
  rw [if_neg (not_not_intro hmk)] at h
  rw [if_neg (not_not_intro hmk)]
  by_cases hder : derive_address a1.address est.bump = a4.address
  case neg =>
    rw [if_pos hder] at h; exact absurd h (by simp)
  rw [if_neg (not_not_intro hder)] at h
  rw [if_neg (not_not_intro hder)]
  rcases hTB : token_account_of s a5.address with _ | tb
  · simp only [hTB] at h; exact absurd h (by simp)
  simp only [hTB] at h
  dsimp only
  by_cases hc5 : tb.owner ≠ a0.address ∨ tb.mint ≠ a3.address
  case pos =>
    rw [if_pos hc5] at h; exact absurd h (by simp)
  rw [if_neg hc5] at h
  rw [if_neg hc5]
  rcases hMB : token_account_of s a6.address with _ | mb
  · simp only [hMB] at h; exact absurd h (by simp)
  simp only [hMB] at h
  dsimp only
  by_cases hc6 : mb.owner ≠ a1.address ∨ mb.mint ≠ a3.address
  case pos =>
    rw [if_pos hc6] at h; exact absurd h (by simp)
  rw [if_neg hc6] at h
  rw [if_neg hc6]
  rcases hTA : token_account_of s a7.address with _ | ta
  · simp only [hTA] at h; exact absurd h (by simp)
  simp only [hTA] at h
  dsimp only
  by_cases hc7 : ta.owner ≠ a0.address ∨ ta.mint ≠ a2.address
  case pos =>
    rw [if_pos hc7] at h; exact absurd h (by simp)
  rw [if_neg hc7] at h
  rw [if_neg hc7]
  rcases hEA : token_account_of s a8.address with _ | ea
  · simp only [hEA] at h; exact absurd h (by simp)
  simp only [hEA] at h
  dsimp only
  by_cases hc8 : ea.owner ≠ a4.address ∨ ea.mint ≠ a2.address ∨
      ea.amount < est.amount_to_give
  case pos =>
    rw [if_pos hc8] at h; exact absurd h (by simp)
  rw [if_neg hc8]
  rfl

theorem refund_checks_fail (s : State) (a0 a1 a2 a3 a4 a5 a6 : AccountMeta)
    (rest : List AccountMeta) (er : ProgramError)
    (h : refund_spec_checks s a0 a1 a2 a3 a4 a5 = some er) :
    process_refund_instruction s
      (a0 :: a1 :: a2 :: a3 :: a4 :: a5 :: a6 :: rest) = ⟨.error er, []⟩ := by
  simp only [refund_spec_checks] at h
  simp only [process_refund_instruction]
  by_cases hsig : a0.is_signer = false
  · rw [if_pos hsig] at h
    rw [if_pos hsig, Option.some.inj h]
  rw [if_neg hsig] at h
  rw [if_neg hsig]
  by_cases hown : owned_by s a3.address program_id
  case neg =>
    rw [if_pos hown] at h
    rw [if_pos hown, Option.some.inj h]
  rw [if_neg (not_not_intro hown)] at h
  rw [if_neg (not_not_intro hown)]
  rcases hE : Escrow.from_account_info s a3.address with eE | est
  · simp only [hE] at h
    obtain rfl : er = eE := (Option.some.inj h).symm
    rfl
  simp only [hE] at h
  dsimp only
  by_cases hc3 : est.maker ≠ a0.address ∨ est.mint_a ≠ a1.address ∨
      est.mint_b ≠ a2.address
  case pos =>
    rw [if_pos hc3] at h
    rw [if_pos hc3, Option.some.inj h]
  rw [if_neg hc3] at h
  rw [if_neg hc3]
  by_cases hder : derive_address a0.address est.bump = a3.address
  case neg =>
    rw [if_pos hder] at h
    rw [if_pos hder, Option.some.inj h]
  rw [if_neg (not_not_intro hder)] at h
  rw [if_neg (not_not_intro hder)]
  rcases hMA : token_account_of s a4.address with _ | ma
  · simp only [hMA] at h
    obtain rfl : er = .InvalidAccountData := (Option.some.inj h).symm
    rfl
  simp only [hMA] at h
  dsimp only
  by_cases hc5 : ma.owner ≠ a0.address ∨ ma.mint ≠ a1.address
  case pos =>
    rw [if_pos hc5] at h
    rw [if_pos hc5, Option.some.inj h]
  rw [if_neg hc5] at h
  rw [if_neg hc5]
  rcases hEA : token_account_of s a5.address with _ | ea
  · simp only [hEA] at h
    obtain rfl : er = .InvalidAccountData := (Option.some.inj h).symm
    rfl
  simp only [hEA] at h
  dsimp only
  by_cases hc6 : ea.owner ≠ a3.address ∨ ea.mint ≠ a1.address ∨
      ea.amount < est.amount_to_give
  case pos =>
    rw [if_pos hc6] at h
    rw [if_pos hc6, Option.some.inj h]
  rw [if_neg hc6] at h
  exact absurd h (by simp)

theorem refund_checks_pass (s : State) (a0 a1 a2 a3 a4 a5 a6 : AccountMeta)
    (rest : List AccountMeta)
    (h : refund_spec_checks s a0 a1 a2 a3 a4 a5 = none) :
    ∃ est, Escrow.from_account_info s a3.address = .ok est ∧
      process_refund_instruction s
        (a0 :: a1 :: a2 :: a3 :: a4 :: a5 :: a6 :: rest) =
        refund_effects s a0 a1 a3 a4 a5 est := by
  simp only [refund_spec_checks] at h
  simp only [process_refund_instruction]
  by_cases hsig : a0.is_signer = false
  · rw [if_pos hsig] at h; exact absurd h (by simp)
  rw [if_neg hsig] at h
  rw [if_neg hsig]
  by_cases hown : owned_by s a3.address program_id
  case neg =>
    rw [if_pos hown] at h; exact absurd h (by simp)
  rw [if_neg (not_not_intro hown)] at h
  rw [if_neg (not_not_intro hown)]
  rcases hE : Escrow.from_account_info s a3.address with eE | est
  · simp only [hE] at h; exact absurd h (by simp)
  simp only [hE] at h
  dsimp only
  refine ⟨est, rfl, ?_⟩
  by_cases hc3 : est.maker ≠ a0.address ∨ est.mint_a ≠ a1.address ∨
      est.mint_b ≠ a2.address
  case pos =>
    rw [if_pos hc3] at h; exact absurd h (by simp)
  rw [if_neg hc3] at h
  rw [if_neg hc3]
  by_cases hder : derive_address a0.address est.bump = a3.address
  case neg =>
    rw [if_pos hder] at h; exact absurd h (by simp)
  rw [if_neg (not_not_intro hder)] at h
  rw [if_neg (not_not_intro hder)]
  rcases hMA : token_account_of s a4.address with _ | ma
  · simp only [hMA] at h; exact absurd h (by simp)
  simp only [hMA] at h
  dsimp only
  by_cases hc5 : ma.owner ≠ a0.address ∨ ma.mint ≠ a1.address
  case pos =>
    rw [if_pos hc5] at h; exact absurd h (by simp)
  rw [if_neg hc5] at h
  rw [if_neg hc5]
  rcases hEA : token_account_of s a5.address with _ | ea
  · simp only [hEA] at h; exact absurd h (by simp)
  simp only [hEA] at h
  dsimp only
  by_cases hc6 : ea.owner ≠ a3.address ∨ ea.mint ≠ a1.address ∨
      ea.amount < est.amount_to_give
  case pos =>
    rw [if_pos hc6] at h; exact absurd h (by simp)
  rw [if_neg hc6]
  rfl

/-- Claim C3: in both handlers the validation checks run in exactly the
spec-listed order (`take_spec_checks` / `refund_spec_checks` are written in
that order), and whenever some check fails, the handler returns the error of
the first failing check having performed no transfer, no account closure and
no balance mutation (empty event list, error result). -/
theorem checks_in_spec_order_first_failure_aborts :
    (∀ (s : State) (a0 a1 a2 a3 a4 a5 a6 a7 a8 a9 : AccountMeta)
      (rest : List AccountMeta) (er : ProgramError),
      take_spec_checks s a0 a1 a2 a3 a4 a5 a6 a7 a8 = some er →
      process_take_instruction s
        (a0 :: a1 :: a2 :: a3 :: a4 :: a5 :: a6 :: a7 :: a8 :: a9 :: rest) =
        ⟨.error er, []⟩) ∧
    (∀ (s : State) (a0 a1 a2 a3 a4 a5 a6 : AccountMeta)
      (rest : List AccountMeta) (er : ProgramError),
      refund_spec_checks s a0 a1 a2 a3 a4 a5 = some er →
      process_refund_instruction s
        (a0 :: a1 :: a2 :: a3 :: a4 :: a5 :: a6 :: rest) = ⟨.error er, []⟩) :=
  ⟨take_checks_fail, refund_checks_fail⟩

/-- Witness for `checks_in_spec_order_first_failure_aborts`: a signerless
`Take` and a taker-signed `Refund` on the canonical state fail with the first
failing check's error and an empty event list. -/
theorem checks_in_spec_order_witness :
    process_take_instruction good_state
      [⟨12, false⟩, ⟨11, false⟩, ⟨21, false⟩, ⟨22, false⟩, ⟨5635, false⟩,
       ⟨41, false⟩, ⟨42, false⟩, ⟨43, false⟩, ⟨31, false⟩, ⟨2000, false⟩] =
      ⟨.error .MissingRequiredSignature, []⟩ ∧
    process_refund_instruction good_state
      [⟨12, true⟩, ⟨21, false⟩, ⟨22, false⟩, ⟨5635, false⟩, ⟨44, false⟩,
       ⟨31, false⟩, ⟨2000, false⟩] = ⟨.error .InvalidAccountData, []⟩ := by
  constructor
  · exact checks_in_spec_order_first_failure_aborts.1 good_state
      ⟨12, false⟩ ⟨11, false⟩ ⟨21, false⟩ ⟨22, false⟩ ⟨5635, false⟩
      ⟨41, false⟩ ⟨42, false⟩ ⟨43, false⟩ ⟨31, false⟩ ⟨2000, false⟩ [] _ (by decide)
  · exact checks_in_spec_order_first_failure_aborts.2 good_state
      ⟨12, true⟩ ⟨21, false⟩ ⟨22, false⟩ ⟨5635, false⟩ ⟨44, false⟩
      ⟨31, false⟩ ⟨2000, false⟩ [] _ (by decide)

/-- When the `Take` check scan comes back clean, every individual fact it
checked holds. -/
theorem take_spec_checks_none {s : State} {a0 a1 a2 a3 a4 a5 a6 a7 a8 : AccountMeta}
    (h : take_spec_checks s a0 a1 a2 a3 a4 a5 a6 a7 a8 = none) :
    ∃ est tb mb ta ea,
      a0.is_signer = true ∧
      owned_by s a4.address program_id ∧
      Escrow.from_account_info s a4.address = .ok est ∧
      est.maker = a1.address ∧
      derive_address a1.address est.bump = a4.address ∧
      token_account_of s a5.address = some tb ∧ tb.owner = a0.address ∧
      tb.mint = a3.address ∧
      token_account_of s a6.address = some mb ∧ mb.owner = a1.address ∧
      mb.mint = a3.address ∧
      token_account_of s a7.address = some ta ∧ ta.owner = a0.address ∧
      ta.mint = a2.address ∧
      token_account_of s a8.address = some ea ∧ ea.owner = a4.address ∧
      ea.mint = a2.address ∧ est.amount_to_give ≤ ea.amount := by
  simp only [take_spec_checks] at h
  by_cases hsig0 : a0.is_signer = false
  · rw [if_pos hsig0] at h; exact absurd h (by simp)
  rw [if_neg hsig0] at h
  have hsig : a0.is_signer = true := by revert hsig0; cases a0.is_signer <;> simp
  by_cases hown : owned_by s a4.address program_id
  case neg => rw [if_pos hown] at h; exact absurd h (by simp)
  rw [if_neg (not_not_intro hown)] at h
  rcases hE : Escrow.from_account_info s a4.address with eE | est
  · simp only [hE] at h; exact absurd h (by simp)
  simp only [hE] at h
  by_cases hmk : est.maker = a1.address
  case neg => rw [if_pos hmk] at h; exact absurd h (by simp)
  rw [if_neg (not_not_intro hmk)] at h
  by_cases hder : derive_address a1.address est.bump = a4.address
  case neg => rw [if_pos hder] at h; exact absurd h (by simp)
  rw [if_neg (not_not_intro hder)] at h
  rcases hTB : token_account_of s a5.address with _ | tb
  · simp only [hTB] at h; exact absurd h (by simp)
  simp only [hTB] at h
  by_cases hc5 : tb.owner ≠ a0.address ∨ tb.mint ≠ a3.address
  case pos => rw [if_pos hc5] at h; exact absurd h (by simp)
  rw [if_neg hc5] at h
  push_neg at hc5
  rcases hMB : token_account_of s a6.address with _ | mb
  · simp only [hMB] at h; exact absurd h (by simp)
  simp only [hMB] at h
  by_cases hc6 : mb.owner ≠ a1.address ∨ mb.mint ≠ a3.address
  case pos => rw [if_pos hc6] at h; exact absurd h (by simp)
  rw [if_neg hc6] at h
  push_neg at hc6
  rcases hTA : token_account_of s a7.address with _ | ta
  · simp only [hTA] at h; exact absurd h (by simp)
  simp only [hTA] at h
  by_cases hc7 : ta.owner ≠ a0.address ∨ ta.mint ≠ a2.address
  case pos => rw [if_pos hc7] at h; exact absurd h (by simp)
  rw [if_neg hc7] at h
  push_neg at hc7
  rcases hEA : token_account_of s a8.address with _ | ea
  · simp only [hEA] at h; exact absurd h (by simp)
  simp only [hEA] at h
  by_cases hc8 : ea.owner ≠ a4.address ∨ ea.mint ≠ a2.address ∨
      ea.amount < est.amount_to_give
  case pos => rw [if_pos hc8] at h; exact absurd h (by simp)
  push_neg at hc8
  exact ⟨est, tb, mb, ta, ea, hsig, hown, rfl, hmk, hder, rfl, hc5.1, hc5.2,
    rfl, hc6.1, hc6.2, rfl, hc7.1, hc7.2, rfl, hc8.1, hc8.2.1, hc8.2.2⟩

/-- When the `Refund` check scan comes back clean, every individual fact it
checked holds. -/
theorem refund_spec_checks_none {s : State} {a0 a1 a2 a3 a4 a5 : AccountMeta}
    (h : refund_spec_checks s a0 a1 a2 a3 a4 a5 = none) :
    ∃ est ma ea,
      a0.is_signer = true ∧
      owned_by s a3.address program_id ∧
      Escrow.from_account_info s a3.address = .ok est ∧
      est.maker = a0.address ∧ est.mint_a = a1.address ∧ est.mint_b = a2.address ∧
      derive_address a0.address est.bump = a3.address ∧
      token_account_of s a4.address = some ma ∧ ma.owner = a0.address ∧
      ma.mint = a1.address ∧
      token_account_of s a5.address = some ea ∧ ea.owner = a3.address ∧
      ea.mint = a1.address ∧ est.amount_to_give ≤ ea.amount := by
  simp only [refund_spec_checks] at h
  by_cases hsig0 : a0.is_signer = false
  · rw [if_pos hsig0] at h; exact absurd h (by simp)
  rw [if_neg hsig0] at h
  have hsig : a0.is_signer = true := by revert hsig0; cases a0.is_signer <;> simp
  by_cases hown : owned_by s a3.address program_id
  case neg => rw [if_pos hown] at h; exact absurd h (by simp)
  rw [if_neg (not_not_intro hown)] at h
  rcases hE : Escrow.from_account_info s a3.address with eE | est
  · simp only [hE] at h; exact absurd h (by simp)
  simp only [hE] at h
  by_cases hc3 : est.maker ≠ a0.address ∨ est.mint_a ≠ a1.address ∨
      est.mint_b ≠ a2.address
  case pos => rw [if_pos hc3] at h; exact absurd h (by simp)
  rw [if_neg hc3] at h
  push_neg at hc3
  by_cases hder : derive_address a0.address est.bump = a3.address
  case neg => rw [if_pos hder] at h; exact absurd h (by simp)
  rw [if_neg (not_not_intro hder)] at h
  rcases hMA : token_account_of s a4.address with _ | ma
  · simp only [hMA] at h; exact absurd h (by simp)
  simp only [hMA] at h
  by_cases hc5 : ma.owner ≠ a0.address ∨ ma.mint ≠ a1.address
  case pos => rw [if_pos hc5] at h; exact absurd h (by simp)
  rw [if_neg hc5] at h
  push_neg at hc5
  rcases hEA : token_account_of s a5.address with _ | ea
  · simp only [hEA] at h; exact absurd h (by simp)
  simp only [hEA] at h
  by_cases hc6 : ea.owner ≠ a3.address ∨ ea.mint ≠ a1.address ∨
      ea.amount < est.amount_to_give
  case pos => rw [if_pos hc6] at h; exact absurd h (by simp)
  push_neg at hc6
  exact ⟨est, ma, ea, hsig, hown, rfl, hc3.1, hc3.2.1, hc3.2.2, hder, rfl,
    hc5.1, hc5.2, rfl, hc6.1, hc6.2.1, hc6.2.2⟩

/-- Claim C7: whenever the taker's asset-B account holds strictly less than
the record's `amount_to_receive`, `Take` fails as a whole: the result is an
error and no token-program operation was invoked. -/
theorem take_insufficient_taker_b_fails
    {s : State} {est : Escrow} {tb : TokenAccount}
    {a0 a1 a2 a3 a4 a5 a6 a7 a8 a9 : AccountMeta} {rest : List AccountMeta}
    (hE : Escrow.from_account_info s a4.address = .ok est)
    (hTB : token_account_of s a5.address = some tb)
    (hlt : tb.amount < est.amount_to_receive) :
    result_is_ok (process_take_instruction s
      (a0 :: a1 :: a2 :: a3 :: a4 :: a5 :: a6 :: a7 :: a8 :: a9 :: rest)) = false ∧
    (process_take_instruction s
      (a0 :: a1 :: a2 :: a3 :: a4 :: a5 :: a6 :: a7 :: a8 :: a9 :: rest)).events = [] := by
  rcases hc : take_spec_checks s a0 a1 a2 a3 a4 a5 a6 a7 a8 with _ | er
  · obtain ⟨est', hE', hproc⟩ := take_checks_pass s a0 a1 a2 a3 a4 a5 a6 a7 a8 a9 rest hc
    obtain rfl : est' = est := by
      rw [hE'] at hE
      exact Except.ok.inj hE
    rw [hproc]
    unfold take_effects
    rcases h1 : spl_transfer s a5.address a6.address a0.address a0.is_signer
        est'.amount_to_receive with er1 | s1
    · exact ⟨rfl, rfl⟩
    · exfalso
      obtain ⟨src, dst, hsrc, -, hle, -⟩ := spl_transfer_ok h1
      rw [hTB] at hsrc
      obtain rfl : tb = src := Option.some.inj hsrc
      omega
  · rw [take_checks_fail s a0 a1 a2 a3 a4 a5 a6 a7 a8 a9 rest er hc]
    exact ⟨rfl, rfl⟩

/-- Witness for `take_insufficient_taker_b_fails`: the taker's asset-B
account holds 5 < 100. -/
theorem take_insufficient_taker_b_witness :
    result_is_ok (process_take_instruction good_state
      [⟨12, true⟩, ⟨11, false⟩, ⟨21, false⟩, ⟨22, false⟩, ⟨5635, false⟩,
       ⟨46, false⟩, ⟨42, false⟩, ⟨43, false⟩, ⟨31, false⟩, ⟨2000, false⟩]) = false ∧
    (process_take_instruction good_state
      [⟨12, true⟩, ⟨11, false⟩, ⟨21, false⟩, ⟨22, false⟩, ⟨5635, false⟩,
       ⟨46, false⟩, ⟨42, false⟩, ⟨43, false⟩, ⟨31, false⟩, ⟨2000, false⟩]).events = [] := by
  exact take_insufficient_taker_b_fails
    (show Escrow.from_account_info good_state (AccountMeta.mk 5635 false).address =
      Except.ok { maker := 11, mint_a := 21, mint_b := 22, amount_to_receive := 100,
                  amount_to_give := 500, bump := 1 } from rfl)
    (show token_account_of good_state (AccountMeta.mk 46 false).address =
      some { mint := 22, owner := 12, amount := 5 } from rfl)
    (by decide)

/-- Claim C8: a `Refund` whose required signer (account position 0) is not
the maker recorded in the escrow record fails with no state change, whatever
the rest of the input looks like. -/
theorem refund_wrong_maker_fails
    {s : State} {est : Escrow}
    {a0 a1 a2 a3 a4 a5 a6 : AccountMeta} {rest : List AccountMeta}
    (hE : Escrow.from_account_info s a3.address = .ok est)
    (hneq : est.maker ≠ a0.address) :
    result_is_ok (process_refund_instruction s
      (a0 :: a1 :: a2 :: a3 :: a4 :: a5 :: a6 :: rest)) = false ∧
    (process_refund_instruction s
      (a0 :: a1 :: a2 :: a3 :: a4 :: a5 :: a6 :: rest)).events = [] := by
  rcases hc : refund_spec_checks s a0 a1 a2 a3 a4 a5 with _ | er
  · exfalso
    obtain ⟨est', ma, ea, -, -, hE', hmk, -⟩ := refund_spec_checks_none hc
    rw [hE'] at hE
    obtain rfl : est' = est := Except.ok.inj hE
    exact hneq hmk
  · rw [refund_checks_fail s a0 a1 a2 a3 a4 a5 a6 rest er hc]
    exact ⟨rfl, rfl⟩

/-- Witness for `refund_wrong_maker_fails`: the taker (address 12) signs a
structurally valid refund, but the stored maker is 11. -/
theorem refund_wrong_maker_witness :
    result_is_ok (process_refund_instruction good_state
      [⟨12, true⟩, ⟨21, false⟩, ⟨22, false⟩, ⟨5635, false⟩, ⟨44, false⟩,
       ⟨31, false⟩, ⟨2000, false⟩]) = false ∧
    (process_refund_instruction good_state
      [⟨12, true⟩, ⟨21, false⟩, ⟨22, false⟩, ⟨5635, false⟩, ⟨44, false⟩,
       ⟨31, false⟩, ⟨2000, false⟩]).events = [] := by
  exact refund_wrong_maker_fails
    (show Escrow.from_account_info good_state (AccountMeta.mk 5635 false).address =
      Except.ok { maker := 11, mint_a := 21, mint_b := 22, amount_to_receive := 100,
                  amount_to_give := 500, bump := 1 } from rfl)
    (by decide)

/-- Claim C4: the only event sequences `Take` can produce are the prefixes of
"taker-authorized B transfer, then the derived-address-authorized A transfer
out of custody, then the custody close": the program-authorized transfer never
happens unless the taker-authorized transfer already succeeded, and it always
comes strictly after it. -/
theorem take_transfer_order
    {s : State} {est : Escrow}
    {a0 a1 a2 a3 a4 a5 a6 a7 a8 a9 : AccountMeta} {rest : List AccountMeta}
    (hE : Escrow.from_account_info s a4.address = .ok est) :
    (process_take_instruction s
      (a0 :: a1 :: a2 :: a3 :: a4 :: a5 :: a6 :: a7 :: a8 :: a9 :: rest)).events = [] ∨
    (process_take_instruction s
      (a0 :: a1 :: a2 :: a3 :: a4 :: a5 :: a6 :: a7 :: a8 :: a9 :: rest)).events =
      [Event.transfer a5.address a6.address a0.address est.amount_to_receive] ∨
    (process_take_instruction s
      (a0 :: a1 :: a2 :: a3 :: a4 :: a5 :: a6 :: a7 :: a8 :: a9 :: rest)).events =
      [Event.transfer a5.address a6.address a0.address est.amount_to_receive,
       Event.transfer a8.address a7.address a4.address est.amount_to_give] ∨
    (process_take_instruction s
      (a0 :: a1 :: a2 :: a3 :: a4 :: a5 :: a6 :: a7 :: a8 :: a9 :: rest)).events =
      [Event.transfer a5.address a6.address a0.address est.amount_to_receive,
       Event.transfer a8.address a7.address a4.address est.amount_to_give,
       Event.close_token_account a8.address a1.address] := by
  rcases hc : take_spec_checks s a0 a1 a2 a3 a4 a5 a6 a7 a8 with _ | er
  · obtain ⟨est', hE', hproc⟩ := take_checks_pass s a0 a1 a2 a3 a4 a5 a6 a7 a8 a9 rest hc
    obtain rfl : est' = est := by
      rw [hE'] at hE
      exact Except.ok.inj hE
    rw [hproc]
    unfold take_effects
    rcases h1 : spl_transfer s a5.address a6.address a0.address a0.is_signer
        est'.amount_to_receive with er1 | s1
    · exact Or.inl rfl
    dsimp only
    rcases h2 : spl_transfer s1 a8.address a7.address a4.address
        (decide (derive_address a1.address est'.bump = a4.address))
        est'.amount_to_give with er2 | s2
    · exact Or.inr (Or.inl rfl)
    dsimp only
    rcases h3 : spl_close_account s2 a8.address a1.address a4.address
        (decide (derive_address a1.address est'.bump = a4.address)) with er3 | s3
    · exact Or.inr (Or.inr (Or.inl rfl))
    · exact Or.inr (Or.inr (Or.inr rfl))
  · rw [take_checks_fail s a0 a1 a2 a3 a4 a5 a6 a7 a8 a9 rest er hc]
    exact Or.inl rfl

/-- Witness for `take_transfer_order` at the canonical scenario. -/
theorem take_transfer_order_witness :
    (process_take_instruction good_state take_accounts).events = [] ∨
    (process_take_instruction good_state take_accounts).events =
      [Event.transfer 41 42 12 100] ∨
    (process_take_instruction good_state take_accounts).events =
      [Event.transfer 41 42 12 100, Event.transfer 31 43 5635 500] ∨
    (process_take_instruction good_state take_accounts).events =
      [Event.transfer 41 42 12 100, Event.transfer 31 43 5635 500,
       Event.close_token_account 31 11] := by
  exact take_transfer_order
    (show Escrow.from_account_info good_state (AccountMeta.mk 5635 false).address =
      Except.ok { maker := 11, mint_a := 21, mint_b := 22, amount_to_receive := 100,
                  amount_to_give := 500, bump := 1 } from rfl)

/-- The custody (vault) account fails the custody check: wrong owner, wrong
mint, or balance below the required amount (a missing/unparsable custody
account vacuously fails it). -/
def custody_check_fails (s : State) (vault escrow mintA : Address) (needed : Nat) : Prop :=
  ∀ ea, token_account_of s vault = some ea →
    ea.owner ≠ escrow ∨ ea.mint ≠ mintA ∨ ea.amount < needed

/-- Claim C6 (amended): in both handlers, when every check before the custody
check passes and the custody account is invalid (wrong owner, wrong mint, or
balance < `amount_to_give`), the handler returns `InvalidAccountData` with no
token-program operation performed; and whenever a handler performed any
token-program operation at all, the custody account's balance at entry was at
least the record's `amount_to_give`. -/
theorem invalid_custody_rejected_before_transfer :
    (∀ (s : State) (a0 a1 a2 a3 a4 a5 a6 a7 a8 a9 : AccountMeta)
      (rest : List AccountMeta) (est : Escrow) (tb mb ta : TokenAccount),
      a0.is_signer = true →
      owned_by s a4.address program_id →
      Escrow.from_account_info s a4.address = .ok est →
      est.maker = a1.address →
      derive_address a1.address est.bump = a4.address →
      token_account_of s a5.address = some tb → tb.owner = a0.address →
      tb.mint = a3.address →
      token_account_of s a6.address = some mb → mb.owner = a1.address →
      mb.mint = a3.address →
      token_account_of s a7.address = some ta → ta.owner = a0.address →
      ta.mint = a2.address →
      custody_check_fails s a8.address a4.address a2.address est.amount_to_give →
      process_take_instruction s
        (a0 :: a1 :: a2 :: a3 :: a4 :: a5 :: a6 :: a7 :: a8 :: a9 :: rest) =
        ⟨.error .InvalidAccountData, []⟩) ∧
    (∀ (s : State) (a0 a1 a2 a3 a4 a5 a6 : AccountMeta)
      (rest : List AccountMeta) (est : Escrow) (ma : TokenAccount),
      a0.is_signer = true →
      owned_by s a3.address program_id →
      Escrow.from_account_info s a3.address = .ok est →
      est.maker = a0.address → est.mint_a = a1.address → est.mint_b = a2.address →
      derive_address a0.address est.bump = a3.address →
      token_account_of s a4.address = some ma → ma.owner = a0.address →
      ma.mint = a1.address →
      custody_check_fails s a5.address a3.address a1.address est.amount_to_give →
      process_refund_instruction s
        (a0 :: a1 :: a2 :: a3 :: a4 :: a5 :: a6 :: rest) =
        ⟨.error .InvalidAccountData, []⟩) ∧
    (∀ (s : State) (a0 a1 a2 a3 a4 a5 a6 a7 a8 a9 : AccountMeta)
      (rest : List AccountMeta),
      (process_take_instruction s
        (a0 :: a1 :: a2 :: a3 :: a4 :: a5 :: a6 :: a7 :: a8 :: a9 :: rest)).events ≠ [] →
      ∃ est ea, Escrow.from_account_info s a4.address = .ok est ∧
        token_account_of s a8.address = some ea ∧ est.amount_to_give ≤ ea.amount) ∧
    (∀ (s : State) (a0 a1 a2 a3 a4 a5 a6 : AccountMeta) (rest : List AccountMeta),
      (process_refund_instruction s
        (a0 :: a1 :: a2 :: a3 :: a4 :: a5 :: a6 :: rest)).events ≠ [] →
      ∃ est ea, Escrow.from_account_info s a3.address = .ok est ∧
        token_account_of s a5.address = some ea ∧ est.amount_to_give ≤ ea.amount) := by
  refine ⟨?_, ?_, ?_, ?_⟩
  · intro s a0 a1 a2 a3 a4 a5 a6 a7 a8 a9 rest est tb mb ta hsig hown hE hmk hder
      hTB htb1 htb2 hMB hmb1 hmb2 hTA hta1 hta2 hbad
    have hchk : take_spec_checks s a0 a1 a2 a3 a4 a5 a6 a7 a8 = some .InvalidAccountData := by
      simp only [take_spec_checks]
      rw [if_neg (by simp [hsig])]
      rw [if_neg (not_not_intro hown)]
      simp only [hE]
      rw [if_neg (not_not_intro hmk)]
      rw [if_neg (not_not_intro hder)]
      simp only [hTB]
      rw [if_neg (by push_neg; exact ⟨htb1, htb2⟩)]
      simp only [hMB]
      rw [if_neg (by push_neg; exact ⟨hmb1, hmb2⟩)]
      simp only [hTA]
      rw [if_neg (by push_neg; exact ⟨hta1, hta2⟩)]
      rcases hEA : token_account_of s a8.address with _ | ea
      · simp only [hEA]
      · simp only [hEA]
        rw [if_pos (hbad ea hEA)]
    exact take_checks_fail s a0 a1 a2 a3 a4 a5 a6 a7 a8 a9 rest _ hchk
  · intro s a0 a1 a2 a3 a4 a5 a6 rest est ma hsig hown hE hmk hma hmb hder
      hMA hma1 hma2 hbad
    have hchk : refund_spec_checks s a0 a1 a2 a3 a4 a5 = some .InvalidAccountData := by
      simp only [refund_spec_checks]
      rw [if_neg (by simp [hsig])]
      rw [if_neg (not_not_intro hown)]
      simp only [hE]
      rw [if_neg (by push_neg; exact ⟨hmk, hma, hmb⟩)]
      rw [if_neg (not_not_intro hder)]
      simp only [hMA]
      rw [if_neg (by push_neg; exact ⟨hma1, hma2⟩)]
      rcases hEA : token_account_of s a5.address with _ | ea
      · simp only [hEA]
      · simp only [hEA]
        rw [if_pos (hbad ea hEA)]
    exact refund_checks_fail s a0 a1 a2 a3 a4 a5 a6 rest _ hchk
  · intro s a0 a1 a2 a3 a4 a5 a6 a7 a8 a9 rest hne
    rcases hc : take_spec_checks s a0 a1 a2 a3 a4 a5 a6 a7 a8 with _ | er
    · obtain ⟨est, tb, mb, ta, ea, -, -, hE, -, -, -, -, -, -, -, -, -, -, -,
        hEA, -, -, hle⟩ := take_spec_checks_none hc
      exact ⟨est, ea, hE, hEA, hle⟩
    · rw [take_checks_fail s a0 a1 a2 a3 a4 a5 a6 a7 a8 a9 rest er hc] at hne
      exact absurd rfl hne
  · intro s a0 a1 a2 a3 a4 a5 a6 rest hne
    rcases hc : refund_spec_checks s a0 a1 a2 a3 a4 a5 with _ | er
    · obtain ⟨est, ma, ea, -, -, hE, -, -, -, -, -, -, -, hEA, -, -, hle⟩ :=
        refund_spec_checks_none hc
      exact ⟨est, ea, hE, hEA, hle⟩
    · rw [refund_checks_fail s a0 a1 a2 a3 a4 a5 a6 rest er hc] at hne
      exact absurd rfl hne

/-- Claim C6 counterexample: with an invalid custody account (owner 11 instead
of the record address 5635) and a missing taker signature, `Take` returns
`MissingRequiredSignature`, not the invalid-custody error the claim promises
for every such input. -/
theorem invalid_custody_preempted_by_signer_check :
    custody_check_fails good_state 44 5635 21 500 ∧
    process_take_instruction good_state
      [⟨12, false⟩, ⟨11, false⟩, ⟨21, false⟩, ⟨22, false⟩, ⟨5635, false⟩,
       ⟨41, false⟩, ⟨42, false⟩, ⟨43, false⟩, ⟨44, false⟩, ⟨2000, false⟩] =
      ⟨.error .MissingRequiredSignature, []⟩ := by
  constructor
  · intro ea hea
    have h0 : token_account_of good_state 44 =
        some { mint := 21, owner := 11, amount := 0 } := rfl
    rw [h0] at hea
    obtain rfl : ea = { mint := 21, owner := 11, amount := 0 } :=
      (Option.some.inj hea).symm
    left
    decide
  · rfl

/-- Witness for `invalid_custody_rejected_before_transfer`: the same invalid
custody account with all earlier checks passing yields `InvalidAccountData`
and no events. -/
theorem invalid_custody_rejected_witness :
    process_take_instruction good_state
      [⟨12, true⟩, ⟨11, false⟩, ⟨21, false⟩, ⟨22, false⟩, ⟨5635, false⟩,
       ⟨41, false⟩, ⟨42, false⟩, ⟨43, false⟩, ⟨44, false⟩, ⟨2000, false⟩] =
      ⟨.error .InvalidAccountData, []⟩ := by
  refine invalid_custody_rejected_before_transfer.1 good_state
    ⟨12, true⟩ ⟨11, false⟩ ⟨21, false⟩ ⟨22, false⟩ ⟨5635, false⟩
    ⟨41, false⟩ ⟨42, false⟩ ⟨43, false⟩ ⟨44, false⟩ ⟨2000, false⟩ []
    { maker := 11, mint_a := 21, mint_b := 22, amount_to_receive := 100,
      amount_to_give := 500, bump := 1 }
    { mint := 22, owner := 12, amount := 100 }
    { mint := 22, owner := 11, amount := 0 }
    { mint := 21, owner := 12, amount := 0 }
    rfl (by decide) rfl (by decide) (by decide) rfl (by decide) (by decide)
    rfl (by decide) (by decide) rfl (by decide) (by decide) ?_
  intro ea hea
  have h0 : token_account_of good_state 44 =
      some { mint := 21, owner := 11, amount := 0 } := rfl
  rw [h0] at hea
  obtain rfl : ea = { mint := 21, owner := 11, amount := 0 } :=
    (Option.some.inj hea).symm
  left
  decide

/-- Claim C5 (amended): account lists shorter than the bound pattern (10 for
`Take`, 7 for `Refund`) are rejected with `NotEnoughAccountKeys` and no
effect; accounts beyond the bound pattern are simply ignored, the handlers
behave exactly as on the first 10 (resp. 7) accounts. -/
theorem account_count_check :
    (∀ (s : State) (accounts : List AccountMeta), accounts.length < 10 →
      process_take_instruction s accounts = ⟨.error .NotEnoughAccountKeys, []⟩) ∧
    (∀ (s : State) (accounts : List AccountMeta), accounts.length < 7 →
      process_refund_instruction s accounts = ⟨.error .NotEnoughAccountKeys, []⟩) ∧
    (∀ (s : State) (a0 a1 a2 a3 a4 a5 a6 a7 a8 a9 : AccountMeta)
      (rest : List AccountMeta),
      process_take_instruction s
        (a0 :: a1 :: a2 :: a3 :: a4 :: a5 :: a6 :: a7 :: a8 :: a9 :: rest) =
      process_take_instruction s
        [a0, a1, a2, a3, a4, a5, a6, a7, a8, a9]) ∧
    (∀ (s : State) (a0 a1 a2 a3 a4 a5 a6 : AccountMeta) (rest : List AccountMeta),
      process_refund_instruction s (a0 :: a1 :: a2 :: a3 :: a4 :: a5 :: a6 :: rest) =
      process_refund_instruction s [a0, a1, a2, a3, a4, a5, a6]) := by
  refine ⟨?_, ?_, fun _ _ _ _ _ _ _ _ _ _ _ _ => rfl, fun _ _ _ _ _ _ _ _ _ => rfl⟩
  · intro s accounts h
    rcases accounts with _ | ⟨a0, accounts⟩
    · rfl
    rcases accounts with _ | ⟨a1, accounts⟩
    · rfl
    rcases accounts with _ | ⟨a2, accounts⟩
    · rfl
    rcases accounts with _ | ⟨a3, accounts⟩
    · rfl
    rcases accounts with _ | ⟨a4, accounts⟩
    · rfl
    rcases accounts with _ | ⟨a5, accounts⟩
    · rfl
    rcases accounts with _ | ⟨a6, accounts⟩
    · rfl
    rcases accounts with _ | ⟨a7, accounts⟩
    · rfl
    rcases accounts with _ | ⟨a8, accounts⟩
    · rfl
    rcases accounts with _ | ⟨a9, accounts⟩
    · rfl
    simp only [List.length_cons] at h
    omega
  · intro s accounts h
    rcases accounts with _ | ⟨a0, accounts⟩
    · rfl
    rcases accounts with _ | ⟨a1, accounts⟩
    · rfl
    rcases accounts with _ | ⟨a2, accounts⟩
    · rfl
    rcases accounts with _ | ⟨a3, accounts⟩
    · rfl
    rcases accounts with _ | ⟨a4, accounts⟩
    · rfl
    rcases accounts with _ | ⟨a5, accounts⟩
    · rfl
    rcases accounts with _ | ⟨a6, accounts⟩
    · rfl
    simp only [List.length_cons] at h
    omega

/-- Claim C5 counterexample: an 11-account `Take` list is not rejected for its
length; here it succeeds outright. -/
theorem take_eleven_accounts_not_rejected :
    (take_accounts ++ [(⟨99, false⟩ : AccountMeta)]).length ≠ 10 ∧
    result_is_ok (process_take_instruction good_state
      (take_accounts ++ [(⟨99, false⟩ : AccountMeta)])) = true := ⟨by decide, by decide⟩

/-- Witness for `account_count_check`: short lists are rejected. -/
theorem account_count_check_witness :
    process_take_instruction good_state [⟨12, true⟩] =
      ⟨.error .NotEnoughAccountKeys, []⟩ ∧
    process_refund_instruction good_state [] =
      ⟨.error .NotEnoughAccountKeys, []⟩ :=
  ⟨account_count_check.1 good_state [⟨12, true⟩] (by decide),
   account_count_check.2.1 good_state [] (by decide)⟩

/-! Machinery for claim C2: owners only ever change to the system program,
so once the record account stops being program-owned it stays that way under
any further `Take`/`Refund` instructions. -/

theorem set_lamports_owner (s : State) (a : Address) (n : Nat) (b : Address) :
    (set_lamports s a n b).owner = (s b).owner := by
  by_cases hb : b = a
  · subst hb; rw [set_lamports_self]
  · rw [set_lamports_other _ _ _ hb]

theorem outcome_result_ok {o : Outcome} {s' : State} (h : o.result = .ok s') :
    o = ⟨.ok s', o.events⟩ := by
  cases o
  simp only at h
  rw [h]

theorem spl_close_account_ok_owner {s s' : State} {account destination authority : Address}
    {sg : Bool}
    (h : spl_close_account s account destination authority sg = .ok s') (b : Address) :
    (s' b).owner = (s b).owner ∨ (s' b).owner = system_program_id := by
  obtain ⟨tok, -, -, -, -, -, -, rfl⟩ := spl_close_account_ok h
  by_cases hb : b = account
  · subst hb; right; rw [upd_self]; rfl
  rw [upd_other _ _ _ hb]
  by_cases hbd : b = destination
  · subst hbd; left; rw [upd_self]
  · left; rw [upd_other _ _ _ hbd]

theorem process_take_result_ok_owner {s : State} {accounts : List AccountMeta} {s' : State}
    (h : (process_take_instruction s accounts).result = .ok s') (b : Address) :
    (s' b).owner = (s b).owner ∨ (s' b).owner = system_program_id := by
  rcases accounts with _ | ⟨a0, accounts⟩
  · exact Except.noConfusion
      (show (Except.error ProgramError.NotEnoughAccountKeys : Except ProgramError State) =
        .ok s' from h)
  rcases accounts with _ | ⟨a1, accounts⟩
  · exact Except.noConfusion
      (show (Except.error ProgramError.NotEnoughAccountKeys : Except ProgramError State) =
        .ok s' from h)
  rcases accounts with _ | ⟨a2, accounts⟩
  · exact Except.noConfusion
      (show (Except.error ProgramError.NotEnoughAccountKeys : Except ProgramError State) =
        .ok s' from h)
  rcases accounts with _ | ⟨a3, accounts⟩
  · exact Except.noConfusion
      (show (Except.error ProgramError.NotEnoughAccountKeys : Except ProgramError State) =
        .ok s' from h)
  rcases accounts with _ | ⟨a4, accounts⟩
  · exact Except.noConfusion
      (show (Except.error ProgramError.NotEnoughAccountKeys : Except ProgramError State) =
        .ok s' from h)
  rcases accounts with _ | ⟨a5, accounts⟩
  · exact Except.noConfusion
      (show (Except.error ProgramError.NotEnoughAccountKeys : Except ProgramError State) =
        .ok s' from h)
  rcases accounts with _ | ⟨a6, accounts⟩
  · exact Except.noConfusion
      (show (Except.error ProgramError.NotEnoughAccountKeys : Except ProgramError State) =
        .ok s' from h)
  rcases accounts with _ | ⟨a7, accounts⟩
  · exact Except.noConfusion
      (show (Except.error ProgramError.NotEnoughAccountKeys : Except ProgramError State) =
        .ok s' from h)
  rcases accounts with _ | ⟨a8, accounts⟩
  · exact Except.noConfusion
      (show (Except.error ProgramError.NotEnoughAccountKeys : Except ProgramError State) =
        .ok s' from h)
  rcases accounts with _ | ⟨a9, accounts⟩
  · exact Except.noConfusion
      (show (Except.error ProgramError.NotEnoughAccountKeys : Except ProgramError State) =
        .ok s' from h)
  obtain ⟨e, tb, mb, ta, ea, s1, s2, s3, -, -, -, -, -, -, -, -, -, -, -, -, -, -, -,
    -, -, -, h1, h2, h3, hs', -⟩ := process_take_ok (outcome_result_ok h)
  subst hs'
  by_cases hb : b = a4.address
  · subst hb; rw [close_account_view_self]; right; rfl
  rw [close_account_view_other _ _ hb, set_lamports_owner]
  rcases spl_close_account_ok_owner h3 b with h' | h'
  · rw [h', spl_transfer_ok_owner h2, spl_transfer_ok_owner h1]
    exact Or.inl rfl
  · exact Or.inr h'

theorem process_refund_result_ok_owner {s : State} {accounts : List AccountMeta} {s' : State}
    (h : (process_refund_instruction s accounts).result = .ok s') (b : Address) :
    (s' b).owner = (s b).owner ∨ (s' b).owner = system_program_id := by
  rcases accounts with _ | ⟨a0, accounts⟩
  · exact Except.noConfusion
      (show (Except.error ProgramError.NotEnoughAccountKeys : Except ProgramError State) =
        .ok s' from h)
  rcases accounts with _ | ⟨a1, accounts⟩
  · exact Except.noConfusion
      (show (Except.error ProgramError.NotEnoughAccountKeys : Except ProgramError State) =
        .ok s' from h)
  rcases accounts with _ | ⟨a2, accounts⟩
  · exact Except.noConfusion
      (show (Except.error ProgramError.NotEnoughAccountKeys : Except ProgramError State) =
        .ok s' from h)
  rcases accounts with _ | ⟨a3, accounts⟩
  · exact Except.noConfusion
      (show (Except.error ProgramError.NotEnoughAccountKeys : Except ProgramError State) =
        .ok s' from h)
  rcases accounts with _ | ⟨a4, accounts⟩
  · exact Except.noConfusion
      (show (Except.error ProgramError.NotEnoughAccountKeys : Except ProgramError State) =
        .ok s' from h)
  rcases accounts with _ | ⟨a5, accounts⟩
  · exact Except.noConfusion
      (show (Except.error ProgramError.NotEnoughAccountKeys : Except ProgramError State) =
        .ok s' from h)
  rcases accounts with _ | ⟨a6, accounts⟩
  · exact Except.noConfusion
      (show (Except.error ProgramError.NotEnoughAccountKeys : Except ProgramError State) =
        .ok s' from h)
  obtain ⟨e, ma, ea, s1, s2, -, -, -, -, -, -, -, -, -, -, -, -, -, -, h1, h2, hs', -⟩ :=
    process_refund_ok (outcome_result_ok h)
  subst hs'
  by_cases hb : b = a3.address
  · subst hb; rw [close_account_view_self]; right; rfl
  rw [close_account_view_other _ _ hb, set_lamports_owner]
  rcases spl_close_account_ok_owner h2 b with h' | h'
  · rw [h', spl_transfer_ok_owner h1]
    exact Or.inl rfl
  · exact Or.inr h'

theorem step_owner (s : State) (i : Instruction) (b : Address) :
    ((step s i) b).owner = (s b).owner ∨ ((step s i) b).owner = system_program_id := by
  unfold step
  rcases hres : (run s i).result with er | s'
  · exact Or.inl rfl
  · dsimp only
    cases i with
    | take accounts => exact process_take_result_ok_owner hres b
    | refund accounts => exact process_refund_result_ok_owner hres b

theorem reachable_owner_ne_pid {s t : State} (h : Reachable s t) (b : Address)
    (hb : (s b).owner ≠ program_id) : (t b).owner ≠ program_id := by
  unfold Reachable at h
  induction h with
  | refl => exact hb
  | tail hst hstep ih =>
    obtain ⟨i, rfl⟩ := hstep
    rcases step_owner _ i b with h' | h'
    · rw [h']; exact ih
    · rw [h']; decide

/-- The account list is at least as long as the handler's bound pattern. -/
def well_formed_count : Instruction → Prop
  | .take accounts => 10 ≤ accounts.length
  | .refund accounts => 7 ≤ accounts.length

/-- The account in position 0 (the required signer) actually signs. -/
def first_account_signs : Instruction → Prop
  | .take accounts => (accounts.head?).map AccountMeta.is_signer = some true
  | .refund accounts => (accounts.head?).map AccountMeta.is_signer = some true

theorem step_of_error {t : State} {i : Instruction} {er : ProgramError}
    (h : (run t i).result = .error er) : step t i = t := by
  unfold step
  rw [h]

theorem run_not_owned {t : State} {i : Instruction} {E : Address}
    (hpos : escrow_position i = some E) (hown : (t E).owner ≠ program_id) :
    (∃ er, (run t i).result = .error er) ∧
    (well_formed_count i → first_account_signs i →
      (run t i).result = .error .IllegalOwner) := by
  cases i with
  | take accounts =>
    rcases accounts with _ | ⟨a0, accounts⟩
    · exact absurd hpos (by simp [escrow_position])
    rcases accounts with _ | ⟨a1, accounts⟩
    · exact absurd hpos (by simp [escrow_position])
    rcases accounts with _ | ⟨a2, accounts⟩
    · exact absurd hpos (by simp [escrow_position])
    rcases accounts with _ | ⟨a3, accounts⟩
    · exact absurd hpos (by simp [escrow_position])
    rcases accounts with _ | ⟨a4, accounts⟩
    · exact absurd hpos (by simp [escrow_position])
    have hE : a4.address = E := by
      simpa [escrow_position] using hpos
    have hno : ¬ owned_by t a4.address program_id := by
      unfold owned_by
      rw [hE]
      exact hown
    rcases accounts with _ | ⟨a5, accounts⟩
    · refine ⟨⟨.NotEnoughAccountKeys, rfl⟩, ?_⟩
      intro hc _
      simp only [well_formed_count, List.length_cons, List.length_nil] at hc
      omega
    rcases accounts with _ | ⟨a6, accounts⟩
    · refine ⟨⟨.NotEnoughAccountKeys, rfl⟩, ?_⟩
      intro hc _
      simp only [well_formed_count, List.length_cons, List.length_nil] at hc
      omega
    rcases accounts with _ | ⟨a7, accounts⟩
    · refine ⟨⟨.NotEnoughAccountKeys, rfl⟩, ?_⟩
      intro hc _
      simp only [well_formed_count, List.length_cons, List.length_nil] at hc
      omega
    rcases accounts with _ | ⟨a8, accounts⟩
    · refine ⟨⟨.NotEnoughAccountKeys, rfl⟩, ?_⟩
      intro hc _
      simp only [well_formed_count, List.length_cons, List.length_nil] at hc
      omega
    rcases accounts with _ | ⟨a9, accounts⟩
    · refine ⟨⟨.NotEnoughAccountKeys, rfl⟩, ?_⟩
      intro hc _
      simp only [well_formed_count, List.length_cons, List.length_nil] at hc
      omega
    constructor
    · by_cases hsig : a0.is_signer = false
      · exact ⟨.MissingRequiredSignature,
          by simp only [run, process_take_instruction]; rw [if_pos hsig]⟩
      · exact ⟨.IllegalOwner,
          by simp only [run, process_take_instruction]; rw [if_neg hsig, if_pos hno]⟩
    · intro _ hs
      have hsig : a0.is_signer = true := by
        simpa [first_account_signs] using hs
      simp only [run, process_take_instruction]
      rw [if_neg (by simp [hsig]), if_pos hno]
  | refund accounts =>
    rcases accounts with _ | ⟨a0, accounts⟩
    · exact absurd hpos (by simp [escrow_position])
    rcases accounts with _ | ⟨a1, accounts⟩
    · exact absurd hpos (by simp [escrow_position])
    rcases accounts with _ | ⟨a2, accounts⟩
    · exact absurd hpos (by simp [escrow_position])
    rcases accounts with _ | ⟨a3, accounts⟩
    · exact absurd hpos (by simp [escrow_position])
    have hE : a3.address = E := by
      simpa [escrow_position] using hpos
    have hno : ¬ owned_by t a3.address program_id := by
      unfold owned_by
      rw [hE]
      exact hown
    rcases accounts with _ | ⟨a4, accounts⟩
    · refine ⟨⟨.NotEnoughAccountKeys, rfl⟩, ?_⟩
      intro hc _
      simp only [well_formed_count, List.length_cons, List.length_nil] at hc
      omega
    rcases accounts with _ | ⟨a5, accounts⟩
    · refine ⟨⟨.NotEnoughAccountKeys, rfl⟩, ?_⟩
      intro hc _
      simp only [well_formed_count, List.length_cons, List.length_nil] at hc
      omega
    rcases accounts with _ | ⟨a6, accounts⟩
    · refine ⟨⟨.NotEnoughAccountKeys, rfl⟩, ?_⟩
      intro hc _
      simp only [well_formed_count, List.length_cons, List.length_nil] at hc
      omega
    constructor
    · by_cases hsig : a0.is_signer = false
      · exact ⟨.MissingRequiredSignature,
          by simp only [run, process_refund_instruction]; rw [if_pos hsig]⟩
      · exact ⟨.IllegalOwner,
          by simp only [run, process_refund_instruction]; rw [if_neg hsig, if_pos hno]⟩
    · intro _ hs
      have hsig : a0.is_signer = true := by
        simpa [first_account_signs] using hs
      simp only [run, process_refund_instruction]
      rw [if_neg (by simp [hsig]), if_pos hno]

theorem run_ok_escrow_owner {s : State} {i : Instruction} {E : Address} {s' : State}
    (hpos : escrow_position i = some E) (h : (run s i).result = .ok s') :
    (s' E).owner = system_program_id := by
  cases i with
  | take accounts =>
    rcases accounts with _ | ⟨a0, accounts⟩
    · exact Except.noConfusion
        (show (Except.error ProgramError.NotEnoughAccountKeys : Except ProgramError State) =
          .ok s' from h)
    rcases accounts with _ | ⟨a1, accounts⟩
    · exact Except.noConfusion
        (show (Except.error ProgramError.NotEnoughAccountKeys : Except ProgramError State) =
          .ok s' from h)
    rcases accounts with _ | ⟨a2, accounts⟩
    · exact Except.noConfusion
        (show (Except.error ProgramError.NotEnoughAccountKeys : Except ProgramError State) =
          .ok s' from h)
    rcases accounts with _ | ⟨a3, accounts⟩
    · exact Except.noConfusion
        (show (Except.error ProgramError.NotEnoughAccountKeys : Except ProgramError State) =
          .ok s' from h)
    rcases accounts with _ | ⟨a4, accounts⟩
    · exact Except.noConfusion
        (show (Except.error ProgramError.NotEnoughAccountKeys : Except ProgramError State) =
          .ok s' from h)
    rcases accounts with _ | ⟨a5, accounts⟩
    · exact Except.noConfusion
        (show (Except.error ProgramError.NotEnoughAccountKeys : Except ProgramError State) =
          .ok s' from h)
    rcases accounts with _ | ⟨a6, accounts⟩
    · exact Except.noConfusion
        (show (Except.error ProgramError.NotEnoughAccountKeys : Except ProgramError State) =
          .ok s' from h)
    rcases accounts with _ | ⟨a7, accounts⟩
    · exact Except.noConfusion
        (show (Except.error ProgramError.NotEnoughAccountKeys : Except ProgramError State) =
          .ok s' from h)
    rcases accounts with _ | ⟨a8, accounts⟩
    · exact Except.noConfusion
        (show (Except.error ProgramError.NotEnoughAccountKeys : Except ProgramError State) =
          .ok s' from h)
    rcases accounts with _ | ⟨a9, accounts⟩
    · exact Except.noConfusion
        (show (Except.error ProgramError.NotEnoughAccountKeys : Except ProgramError State) =
          .ok s' from h)
    have hE : a4.address = E := by
      simpa [escrow_position] using hpos
    have h' : (process_take_instruction s
        (a0 :: a1 :: a2 :: a3 :: a4 :: a5 :: a6 :: a7 :: a8 :: a9 :: accounts)).result =
        .ok s' := h
    obtain ⟨e, tb, mb, ta, ea, s1, s2, s3, -, -, -, -, -, -, -, -, -, -, -, -, -, -, -,
      -, -, -, -, -, -, hs', -⟩ := process_take_ok (outcome_result_ok h')
    subst hs'
    rw [← hE, close_account_view_self]
    rfl
  | refund accounts =>
    rcases accounts with _ | ⟨a0, accounts⟩
    · exact Except.noConfusion
        (show (Except.error ProgramError.NotEnoughAccountKeys : Except ProgramError State) =
          .ok s' from h)
    rcases accounts with _ | ⟨a1, accounts⟩
    · exact Except.noConfusion
        (show (Except.error ProgramError.NotEnoughAccountKeys : Except ProgramError State) =
          .ok s' from h)
    rcases accounts with _ | ⟨a2, accounts⟩
    · exact Except.noConfusion
        (show (Except.error ProgramError.NotEnoughAccountKeys : Except ProgramError State) =
          .ok s' from h)
    rcases accounts with _ | ⟨a3, accounts⟩
    · exact Except.noConfusion
        (show (Except.error ProgramError.NotEnoughAccountKeys : Except ProgramError State) =
          .ok s' from h)
    rcases accounts with _ | ⟨a4, accounts⟩
    · exact Except.noConfusion
        (show (Except.error ProgramError.NotEnoughAccountKeys : Except ProgramError State) =
          .ok s' from h)
    rcases accounts with _ | ⟨a5, accounts⟩
    · exact Except.noConfusion
        (show (Except.error ProgramError.NotEnoughAccountKeys : Except ProgramError State) =
          .ok s' from h)
    rcases accounts with _ | ⟨a6, accounts⟩
    · exact Except.noConfusion
        (show (Except.error ProgramError.NotEnoughAccountKeys : Except ProgramError State) =
          .ok s' from h)
    have hE : a3.address = E := by
      simpa [escrow_position] using hpos
    have h' : (process_refund_instruction s
        (a0 :: a1 :: a2 :: a3 :: a4 :: a5 :: a6 :: accounts)).result = .ok s' := h
    obtain ⟨e, ma, ea, s1, s2, -, -, -, -, -, -, -, -, -, -, -, -, -, -, -, -, hs', -⟩ :=
      process_refund_ok (outcome_result_ok h')
    subst hs'
    rw [← hE, close_account_view_self]
    rfl

/-- Claim C2 (amended): once a `Take` or `Refund` succeeds on an escrow record,
in every state reachable from the post-state by further `Take`/`Refund`
instructions, any invocation naming the same escrow address fails (never
succeeds) and leaves the state unchanged; and whenever its account-count and
signer checks pass, it fails exactly at the program-ownership check with
`IllegalOwner`.  In particular at most one of `Take` and `Refund` ever
succeeds against a given record. -/
theorem take_refund_mutual_exclusion :
    ∀ (s : State) (i : Instruction) (E : Address) (s' : State),
      escrow_position i = some E →
      (run s i).result = .ok s' →
      ∀ t, Reachable s' t →
      ∀ j, escrow_position j = some E →
        ¬ succeeded t j ∧ step t j = t ∧
        (well_formed_count j → first_account_signs j →
          (run t j).result = .error .IllegalOwner) := by
  intro s i E s' hpos hok t hreach j hposj
  have h0 : (s' E).owner = system_program_id := run_ok_escrow_owner hpos hok
  have h1 : (s' E).owner ≠ program_id := by
    rw [h0]; decide
  have h2 : (t E).owner ≠ program_id := reachable_owner_ne_pid hreach E h1
  obtain ⟨⟨er, herr⟩, hio⟩ := run_not_owned hposj h2
  refine ⟨?_, step_of_error herr, hio⟩
  rintro ⟨u, hu⟩
  rw [herr] at hu
  exact Except.noConfusion hu

/-- The state after the canonical successful `Refund` on `good_state`. -/
def refund_good_final : State :=
  outcome_state_or (process_refund_instruction good_state refund_accounts) good_state

/-- Claim C2 counterexample: after a successful `Refund` has destroyed the
record, a `Take` naming the same escrow address but missing the taker's
signature fails at the signer check (`MissingRequiredSignature`), not at the
program-ownership check as the claim states. -/
theorem second_attempt_fails_before_ownership_check :
    result_is_ok (process_refund_instruction good_state refund_accounts) = true ∧
    (refund_good_final 5635).owner = system_program_id ∧
    result_error (process_take_instruction refund_good_final
      [⟨12, false⟩, ⟨11, false⟩, ⟨21, false⟩, ⟨22, false⟩, ⟨5635, false⟩,
       ⟨41, false⟩, ⟨42, false⟩, ⟨43, false⟩, ⟨31, false⟩, ⟨2000, false⟩]) =
      some .MissingRequiredSignature :=
  ⟨by decide, by decide, by decide⟩

/-- Witness for `take_refund_mutual_exclusion`: after the canonical refund, a
well-formed signed `Take` on the same record fails with `IllegalOwner` and
changes nothing. -/
theorem take_refund_mutual_exclusion_witness :
    ¬ succeeded refund_good_final (.take take_accounts) ∧
    step refund_good_final (.take take_accounts) = refund_good_final ∧
    (run refund_good_final (.take take_accounts)).result = .error .IllegalOwner := by
  have h := take_refund_mutual_exclusion good_state (.refund refund_accounts) 5635
    refund_good_final (by decide) rfl refund_good_final Relation.ReflTransGen.refl
    (.take take_accounts) (by decide)
  exact ⟨h.1, h.2.1,
    h.2.2 (show (10 : Nat) ≤ List.length take_accounts by decide)
      (show (List.head? take_accounts).map AccountMeta.is_signer = some true by decide)⟩

/-- `good_state` with the maker's wallet already holding `u64_max - 3000`
lamports, so that the closing credit saturates. -/
def sat_state : State :=
  upd good_state 11
    { lamports := u64_max - 3000, owner := system_program_id, data := .rawData 0 }

/-- Claim C10: in every successful `Take` or `Refund` the maker's
post-instruction lamports are `min(previous + escrow lamports, u64_max)`,
where "previous" is the maker balance right after the custody close (initial
maker lamports plus custody lamports, which the token program adds with a
checked addition, hence the stated bound); the saturating credit never wraps,
and it can genuinely pay the maker less than the escrow account held, as the
concrete saturating instance shows. -/
theorem lamport_credit_saturating :
    (∀ (s s' : State) (evs : List Event)
      (a0 a1 a2 a3 a4 a5 a6 a7 a8 a9 : AccountMeta) (rest : List AccountMeta),
      process_take_instruction s
        (a0 :: a1 :: a2 :: a3 :: a4 :: a5 :: a6 :: a7 :: a8 :: a9 :: rest) =
        ⟨.ok s', evs⟩ →
      (s a1.address).lamports + (s a8.address).lamports ≤ u64_max ∧
      (s' a1.address).lamports =
        sat_add_u64 ((s a1.address).lamports + (s a8.address).lamports)
          (s a4.address).lamports) ∧
    (∀ (s s' : State) (evs : List Event)
      (a0 a1 a2 a3 a4 a5 a6 : AccountMeta) (rest : List AccountMeta),
      process_refund_instruction s
        (a0 :: a1 :: a2 :: a3 :: a4 :: a5 :: a6 :: rest) = ⟨.ok s', evs⟩ →
      (s a0.address).lamports + (s a5.address).lamports ≤ u64_max ∧
      (s' a0.address).lamports =
        sat_add_u64 ((s a0.address).lamports + (s a5.address).lamports)
          (s a3.address).lamports) ∧
    (result_is_ok (process_refund_instruction sat_state refund_accounts) = true ∧
     result_account (process_refund_instruction sat_state refund_accounts) 11 =
       some { lamports := u64_max, owner := system_program_id, data := .rawData 0 } ∧
     (sat_state 11).lamports + (sat_state 31).lamports + (sat_state 5635).lamports =
       u64_max + 4000) := by
  refine ⟨?_, ?_, by decide, by decide, by decide⟩
  · intro s s' evs a0 a1 a2 a3 a4 a5 a6 a7 a8 a9 rest h
    obtain ⟨e', tb, mb, ta, ea, s1, s2, s3, hsig, hown, hE', hmk, hder, hTB, htb1, htb2,
      hMB, hmb1, hmb2, hTA, hta1, hta2, hEA, hea1, hea2, hea3, h1, h2, h3, hs', hev⟩ :=
      process_take_ok h
    have hEo : (s a4.address).owner = program_id := hown
    have htokprog : program_id ≠ token_program_id := by
      simp [token_program_id, program_id]
    have h8E : a8.address ≠ a4.address := by
      intro heq
      have := token_account_of_owner hEA
      rw [heq, hEo] at this
      exact htokprog this
    have h1E : a1.address ≠ a4.address := by
      intro heq
      rw [← heq] at hder
      exact derive_address_ne_maker a1.address e'.bump hder
    obtain ⟨tok, -, hne, -, -, -, hbound, -⟩ := spl_close_account_ok h3
    constructor
    · have ha : (s2 a1.address).lamports = (s a1.address).lamports := by
        rw [spl_transfer_ok_lamports h2, spl_transfer_ok_lamports h1]
      have hb : (s2 a8.address).lamports = (s a8.address).lamports := by
        rw [spl_transfer_ok_lamports h2, spl_transfer_ok_lamports h1]
      rw [ha, hb] at hbound
      exact hbound
    · rw [hs', close_account_view_other _ _ h1E, set_lamports_self]
      have hm3 : (s3 a1.address).lamports =
          (s a1.address).lamports + (s a8.address).lamports := by
        rw [spl_close_account_ok_dest h3]
        show (s2 a1.address).lamports + (s2 a8.address).lamports = _
        rw [spl_transfer_ok_lamports h2, spl_transfer_ok_lamports h1,
          spl_transfer_ok_lamports h2, spl_transfer_ok_lamports h1]
      have hE3 : (s3 a4.address).lamports = (s a4.address).lamports := by
        rw [spl_close_account_ok_lamports_other h3 h8E.symm ..]
        · rw [spl_transfer_ok_lamports h2, spl_transfer_ok_lamports h1]
        · exact h1E.symm
      rw [hm3, hE3]
  · intro s s' evs a0 a1 a2 a3 a4 a5 a6 rest h
    obtain ⟨e', ma, ea, s1, s2, hsig, hown, hE', hmk, hma, hmb, hder, hMA, hma1, hma2,
      hEA, hea1, hea2, hea3, h1, h2, hs', hev⟩ := process_refund_ok h
    have hEo : (s a3.address).owner = program_id := hown
    have htokprog : program_id ≠ token_program_id := by
      simp [token_program_id, program_id]
    have h5E : a5.address ≠ a3.address := by
      intro heq
      have := token_account_of_owner hEA
      rw [heq, hEo] at this
      exact htokprog this
    have h0E : a0.address ≠ a3.address := by
      intro heq
      rw [← heq] at hder
      exact derive_address_ne_maker a0.address e'.bump hder
    obtain ⟨tok, -, hne, -, -, -, hbound, -⟩ := spl_close_account_ok h2
    constructor
    · have ha : (s1 a0.address).lamports = (s a0.address).lamports :=
        spl_transfer_ok_lamports h1 _
      have hb : (s1 a5.address).lamports = (s a5.address).lamports :=
        spl_transfer_ok_lamports h1 _
      rw [ha, hb] at hbound
      exact hbound
    · rw [hs', close_account_view_other _ _ h0E, set_lamports_self]
      have hm2 : (s2 a0.address).lamports =
          (s a0.address).lamports + (s a5.address).lamports := by
        rw [spl_close_account_ok_dest h2]
        show (s1 a0.address).lamports + (s1 a5.address).lamports = _
        rw [spl_transfer_ok_lamports h1, spl_transfer_ok_lamports h1]
      have hE2 : (s2 a3.address).lamports = (s a3.address).lamports := by
        rw [spl_close_account_ok_lamports_other h2 h5E.symm ..]
        · rw [spl_transfer_ok_lamports h1]
        · exact h0E.symm
      rw [hm2, hE2]

/-- Witness for `lamport_credit_saturating` at the canonical `Take`. -/
theorem lamport_credit_saturating_witness :
    (good_state 11).lamports + (good_state 31).lamports ≤ u64_max ∧
    (take_good_final 11).lamports =
      sat_add_u64 ((good_state 11).lamports + (good_state 31).lamports)
        (good_state 5635).lamports := by
  exact lamport_credit_saturating.1 good_state take_good_final
    (process_take_instruction good_state take_accounts).events
    ⟨12, true⟩ ⟨11, false⟩ ⟨21, false⟩ ⟨22, false⟩ ⟨5635, false⟩
    ⟨41, false⟩ ⟨42, false⟩ ⟨43, false⟩ ⟨31, false⟩ ⟨2000, false⟩ [] rfl

/-! Machinery for claim C9: rewriting the mint fields stored in the escrow
record.  `Take` never reads them, so the rewrite commutes with everything the
handler does and is erased by the record close. -/

/-- Overwrite the `mint_a`/`mint_b` fields of the escrow record stored at `a`
(identity when no record is stored there). -/
def set_escrow_mints (s : State) (a : Address) (x y : Address) : State :=
  match (s a).data with
  | .escrowData e =>
    upd s a { s a with data := .escrowData { e with mint_a := x, mint_b := y } }
  | _ => s

theorem upd_comm {s : State} {a b : Address} (h : a ≠ b) (v w : Account) :
    upd (upd s a v) b w = upd (upd s b w) a v := by
  funext c
  unfold upd
  split_ifs with h1 h2 h2 <;> simp_all

theorem upd_shadow (s : State) (a : Address) (v w : Account) :
    upd (upd s a v) a w = upd s a w := by
  funext c
  unfold upd
  split_ifs <;> rfl

theorem set_escrow_mints_eq {s : State} {E : Address} {e : Escrow} (x y : Address)
    (hdE : (s E).data = .escrowData e) :
    set_escrow_mints s E x y =
      upd s E { s E with data := .escrowData { e with mint_a := x, mint_b := y } } := by
  unfold set_escrow_mints
  rw [hdE]

theorem set_escrow_mints_other (s : State) (E x y : Address) {b : Address} (hb : b ≠ E) :
    set_escrow_mints s E x y b = s b := by
  unfold set_escrow_mints
  cases hd : (s E).data <;> simp only [hd]
  exact upd_other _ _ _ hb

theorem set_escrow_mints_owner (s : State) (E x y b : Address) :
    (set_escrow_mints s E x y b).owner = (s b).owner := by
  unfold set_escrow_mints
  cases hd : (s E).data <;> simp only [hd]
  by_cases hb : b = E
  · subst hb; rw [upd_self]
  · rw [upd_other _ _ _ hb]

theorem set_escrow_mints_lamports (s : State) (E x y b : Address) :
    (set_escrow_mints s E x y b).lamports = (s b).lamports := by
  unfold set_escrow_mints
  cases hd : (s E).data <;> simp only [hd]
  by_cases hb : b = E
  · subst hb; rw [upd_self]
  · rw [upd_other _ _ _ hb]

theorem owned_by_set_mints (s : State) (E x y b o : Address) :
    owned_by (set_escrow_mints s E x y) b o = owned_by s b o := by
  unfold owned_by
  rw [set_escrow_mints_owner]

theorem token_account_of_set_mints {s : State} {E : Address} {e : Escrow} (x y : Address)
    (hdE : (s E).data = .escrowData e) (b : Address) :
    token_account_of (set_escrow_mints s E x y) b = token_account_of s b := by
  rw [set_escrow_mints_eq x y hdE]
  by_cases hb : b = E
  · subst hb
    unfold token_account_of
    rw [upd_self, hdE]
  · unfold token_account_of
    rw [upd_other _ _ _ hb]

theorem from_account_info_set_mints {s : State} {E : Address} {e : Escrow} (x y : Address)
    (hdE : (s E).data = .escrowData e) :
    Escrow.from_account_info (set_escrow_mints s E x y) E =
      .ok { e with mint_a := x, mint_b := y } := by
  rw [set_escrow_mints_eq x y hdE]
  unfold Escrow.from_account_info
  rw [upd_self]

theorem set_token_amount_set_mints_comm {s : State} {E : Address} {e : Escrow}
    (x y : Address) (hdE : (s E).data = .escrowData e) {b : Address} (hb : b ≠ E) (n : Nat) :
    set_token_amount (set_escrow_mints s E x y) b n =
      set_escrow_mints (set_token_amount s b n) E x y := by
  have hdE' : ((set_token_amount s b n) E).data = .escrowData e := by
    rw [set_token_amount_other _ _ _ (Ne.symm hb)]
    exact hdE
  rw [set_escrow_mints_eq x y hdE, set_escrow_mints_eq x y hdE']
  rw [set_token_amount_other _ _ _ (Ne.symm hb)]
  unfold set_token_amount
  rw [upd_other _ _ _ hb]
  cases hd : (s b).data <;> simp only [hd] <;>
    first
    | rfl
    | exact upd_comm (Ne.symm hb) _ _

theorem spl_transfer_set_mints_comm {s : State} {E : Address} {e : Escrow}
    (x y : Address) (hdE : (s E).data = .escrowData e)
    {source destination : Address} (hsrc : source ≠ E) (hdst : destination ≠ E)
    (authority : Address) (sg : Bool) (amount : Nat) :
    spl_transfer (set_escrow_mints s E x y) source destination authority sg amount =
      Except.map (fun u => set_escrow_mints u E x y)
        (spl_transfer s source destination authority sg amount) := by
  unfold spl_transfer
  rw [token_account_of_set_mints x y hdE source, token_account_of_set_mints x y hdE
    destination]
  cases h1 : token_account_of s source <;> cases h2 : token_account_of s destination <;>
    dsimp only <;> try rfl
  split_ifs <;>
    first
    | rfl
    | (rw [set_token_amount_set_mints_comm x y hdE hsrc,
        set_token_amount_set_mints_comm x y
          (by rw [set_token_amount_other _ _ _ (Ne.symm hsrc)]; exact hdE) hdst]
       rfl)

theorem spl_close_set_mints_comm {s : State} {E : Address} {e : Escrow}
    (x y : Address) (hdE : (s E).data = .escrowData e)
    {account destination : Address} (hacc : account ≠ E) (hdst : destination ≠ E)
    (authority : Address) (sg : Bool) :
    spl_close_account (set_escrow_mints s E x y) account destination authority sg =
      Except.map (fun u => set_escrow_mints u E x y)
        (spl_close_account s account destination authority sg) := by
  unfold spl_close_account
  rw [token_account_of_set_mints x y hdE account,
    set_escrow_mints_other s E x y hdst, set_escrow_mints_other s E x y hacc]
  cases h1 : token_account_of s account
  · rfl
  dsimp only
  split_ifs <;> try rfl
  have hdE' : ((upd (upd s destination
      { s destination with
        lamports := (s destination).lamports + (s account).lamports }) account
      dead_account) E).data = .escrowData e := by
    rw [upd_other _ _ _ (Ne.symm hacc), upd_other _ _ _ (Ne.symm hdst)]
    exact hdE
  simp only [Except.map]
  rw [set_escrow_mints_eq x y hdE, set_escrow_mints_eq x y hdE']
  rw [upd_other _ _ _ (Ne.symm hacc), upd_other _ _ _ (Ne.symm hdst)]
  rw [upd_comm (show E ≠ destination from fun h => hdst h.symm) _ _,
    upd_comm (show E ≠ account from fun h => hacc h.symm) _ _]

theorem take_spec_checks_set_mints {s : State} {e : Escrow} (x y : Address)
    (a0 a1 a2 a3 a4 a5 a6 a7 a8 : AccountMeta)
    (hdE : (s a4.address).data = .escrowData e) :
    take_spec_checks (set_escrow_mints s a4.address x y) a0 a1 a2 a3 a4 a5 a6 a7 a8 =
      take_spec_checks s a0 a1 a2 a3 a4 a5 a6 a7 a8 := by
  have hE0 : Escrow.from_account_info s a4.address = .ok e := by
    unfold Escrow.from_account_info
    rw [hdE]
  simp only [take_spec_checks, owned_by_set_mints,
    token_account_of_set_mints x y hdE, from_account_info_set_mints x y hdE, hE0]

theorem take_effects_set_mints {s : State} {e : Escrow} (x y : Address)
    (a0 a1 a4 a5 a6 a7 a8 : AccountMeta)
    (hdE : (s a4.address).data = .escrowData e)
    (h1E : a1.address ≠ a4.address) (h5E : a5.address ≠ a4.address)
    (h6E : a6.address ≠ a4.address) (h7E : a7.address ≠ a4.address)
    (h8E : a8.address ≠ a4.address) :
    take_effects (set_escrow_mints s a4.address x y) a0 a1 a4 a5 a6 a7 a8
      { e with mint_a := x, mint_b := y } =
      take_effects s a0 a1 a4 a5 a6 a7 a8 e := by
  unfold take_effects
  dsimp only
  rw [spl_transfer_set_mints_comm x y hdE h5E h6E]
  rcases hT1 : spl_transfer s a5.address a6.address a0.address a0.is_signer
      e.amount_to_receive with er | s1
  · rfl
  dsimp only [Except.map]
  have hdE1 : (s1 a4.address).data = .escrowData e := by
    rw [spl_transfer_ok_frame hT1 (Ne.symm h5E) (Ne.symm h6E)]
    exact hdE
  rw [spl_transfer_set_mints_comm x y hdE1 h8E h7E]
  rcases hT2 : spl_transfer s1 a8.address a7.address a4.address
      (decide (derive_address a1.address e.bump = a4.address)) e.amount_to_give
      with er | s2
  · rfl
  dsimp only [Except.map]
  have hdE2 : (s2 a4.address).data = .escrowData e := by
    rw [spl_transfer_ok_frame hT2 (Ne.symm h8E) (Ne.symm h7E)]
    exact hdE1
  rw [spl_close_set_mints_comm x y hdE2 h8E h1E]
  rcases hT3 : spl_close_account s2 a8.address a1.address a4.address
      (decide (derive_address a1.address e.bump = a4.address)) with er | s3
  · rfl
  dsimp only [Except.map]
  have hdE3 : (s3 a4.address).data = .escrowData e := by
    rw [spl_close_account_ok_frame hT3 (Ne.symm h8E) (Ne.symm h1E)]
    exact hdE2
  rw [set_escrow_mints_lamports, set_escrow_mints_lamports]
  rw [set_escrow_mints_eq x y hdE3]
  unfold set_lamports close_account_view
  rw [upd_other _ _ _ h1E]
  rw [upd_comm (show a4.address ≠ a1.address from Ne.symm h1E) _ _]
  rw [upd_shadow]

/-- Claim C9: `Take` never reads the `mint_a`/`mint_b` fields stored in the
escrow record — rewriting them arbitrarily leaves the handler's behaviour
bit-for-bit unchanged — and consequently a `Take` whose supplied mint-B
account differs from the record's stored `mint_b` succeeds, paying the maker
`amount_to_receive` units of the supplied mint. -/
theorem take_ignores_stored_mints :
    (∀ (s : State) (x y : Address) (e : Escrow)
      (a0 a1 a2 a3 a4 a5 a6 a7 a8 a9 : AccountMeta) (rest : List AccountMeta),
      (s a4.address).data = .escrowData e →
      process_take_instruction (set_escrow_mints s a4.address x y)
        (a0 :: a1 :: a2 :: a3 :: a4 :: a5 :: a6 :: a7 :: a8 :: a9 :: rest) =
      process_take_instruction s
        (a0 :: a1 :: a2 :: a3 :: a4 :: a5 :: a6 :: a7 :: a8 :: a9 :: rest)) ∧
    (Escrow.from_account_info (set_escrow_mints good_state 5635 21 77) 5635 =
       .ok { maker := 11, mint_a := 21, mint_b := 77, amount_to_receive := 100,
             amount_to_give := 500, bump := 1 } ∧
     result_is_ok (process_take_instruction (set_escrow_mints good_state 5635 21 77)
       take_accounts) = true ∧
     result_account (process_take_instruction (set_escrow_mints good_state 5635 21 77)
       take_accounts) 42 =
       some { lamports := 3000, owner := token_program_id,
              data := .tokenData { mint := 22, owner := 11, amount := 100 } }) := by
  constructor
  · intro s x y e a0 a1 a2 a3 a4 a5 a6 a7 a8 a9 rest hdE
    have hchk := take_spec_checks_set_mints x y a0 a1 a2 a3 a4 a5 a6 a7 a8 hdE
    have hE0 : Escrow.from_account_info s a4.address = .ok e := by
      unfold Escrow.from_account_info
      rw [hdE]
    rcases hc : take_spec_checks s a0 a1 a2 a3 a4 a5 a6 a7 a8 with _ | er
    · obtain ⟨est0, hE0', hp0⟩ := take_checks_pass s a0 a1 a2 a3 a4 a5 a6 a7 a8 a9 rest hc
      obtain ⟨est1, hE1, hp1⟩ := take_checks_pass (set_escrow_mints s a4.address x y)
        a0 a1 a2 a3 a4 a5 a6 a7 a8 a9 rest (hchk.trans hc)
      have he0 : est0 = e := by
        rw [hE0] at hE0'
        exact (Except.ok.inj hE0').symm
      have he1 : est1 = { e with mint_a := x, mint_b := y } := by
        rw [from_account_info_set_mints x y hdE] at hE1
        exact (Except.ok.inj hE1).symm
      subst he0
      subst he1
      rw [hp1, hp0]
      obtain ⟨est', tb, mb, ta, ea, -, hown, hE', -, hder', hTB, -, -, hMB, -, -,
        hTA, -, -, hEA, -, -, -⟩ := take_spec_checks_none hc
      have hEo : (s a4.address).owner = program_id := hown
      have htokprog : program_id ≠ token_program_id := by
        simp [program_id, token_program_id]
      have h5E : a5.address ≠ a4.address := by
        intro heq
        have := token_account_of_owner hTB
        rw [heq, hEo] at this
        exact htokprog this
      have h6E : a6.address ≠ a4.address := by
        intro heq
        have := token_account_of_owner hMB
        rw [heq, hEo] at this
        exact htokprog this
      have h7E : a7.address ≠ a4.address := by
        intro heq
        have := token_account_of_owner hTA
        rw [heq, hEo] at this
        exact htokprog this
      have h8E : a8.address ≠ a4.address := by
        intro heq
        have := token_account_of_owner hEA
        rw [heq, hEo] at this
        exact htokprog this
      have h1E : a1.address ≠ a4.address := by
        intro heq
        rw [← heq] at hder'
        exact derive_address_ne_maker a1.address est'.bump hder'
      exact take_effects_set_mints x y a0 a1 a4 a5 a6 a7 a8 hdE h1E h5E h6E h7E h8E
    · rw [take_checks_fail (set_escrow_mints s a4.address x y)
        a0 a1 a2 a3 a4 a5 a6 a7 a8 a9 rest er (hchk.trans hc),
        take_checks_fail s a0 a1 a2 a3 a4 a5 a6 a7 a8 a9 rest er hc]
  · exact ⟨rfl, by decide, by decide⟩

/-- Witness for `take_ignores_stored_mints`: rewriting the stored mints on
the canonical state changes nothing about the canonical `Take`. -/
theorem take_ignores_stored_mints_witness :
    process_take_instruction (set_escrow_mints good_state 5635 7 8) take_accounts =
      process_take_instruction good_state take_accounts := by
  exact take_ignores_stored_mints.1 good_state 7 8
    { maker := 11, mint_a := 21, mint_b := 22, amount_to_receive := 100,
      amount_to_give := 500, bump := 1 }
    ⟨12, true⟩ ⟨11, false⟩ ⟨21, false⟩ ⟨22, false⟩ ⟨5635, false⟩ ⟨41, false⟩
    ⟨42, false⟩ ⟨43, false⟩ ⟨31, false⟩ ⟨2000, false⟩ [] rfl

end Esc
